import Mathlib

/-!
The Asl semantic type checker (`src/asl/TypeCheckListener.cpp`).

A shallow embedding of the listener that type-checks an Asl parse tree.  Every
`exit...`/`enter...` rule of the C++ class becomes a function from the listener state
before the rule to the listener state after it.  The listener state is the three
mutable collaborators the class holds by reference: the symbol table, the tree
decorations and the error collector.  The types manager has no observable state in the
rules of the listener, so its operations are plain functions.

The collaborators (`common/TypesMgr`, `common/SymTable`, `common/TreeDecoration`,
`common/SemErrors`) and the grammar are not part of the sources at hand; they are
modelled from the specification, each such definition saying so.
-/

namespace Asl

/-! ## Parse-tree nodes -/

/-- Identity of a parse-tree node or of a token: the address the C++ code passes around.
The value `0` plays the role of the null pointer. -/
abbrev Node := Nat

/-- The null pointer returned by an ANTLR accessor for a child that is absent. -/
def nullptr : Node := 0

/-- A token of the input (`antlr4::Token*`): its identity and its text. -/
structure Token where
  node : Node
  text : String

/-- Text of a token (`Token::getText`). -/
def Token.getText (t : Token) : String := t.text

/-! ## Type algebra -/

/-- Modelled from the spec: the types a `TypesMgr::TypeId` denotes (section 3, Type):
the four primitive types, `void`, the sentinel `error`, arrays and functions.  An array
type carries, besides its element type and size, the identity `decl` of the declaration
that created it, since the spec has each array declaration introduce a distinct
identity. -/
inductive TypeId where
  | integer
  | float
  | boolean
  | character
  | void
  | error
  | array (elem : TypeId) (size : Nat) (decl : Nat)
  | function (params : List TypeId) (ret : TypeId)

namespace TypesMgr

/-- Modelled from the spec: `createIntegerTy`, the canonical integer type. -/
def createIntegerTy : TypeId := .integer

/-- Modelled from the spec: `createFloatTy`, the canonical float type. -/
def createFloatTy : TypeId := .float

/-- Modelled from the spec: `createBooleanTy`, the canonical boolean type. -/
def createBooleanTy : TypeId := .boolean

/-- Modelled from the spec: `createCharacterTy`, the canonical character type. -/
def createCharacterTy : TypeId := .character

/-- Modelled from the spec: `createVoidTy`, the canonical void type. -/
def createVoidTy : TypeId := .void

/-- Modelled from the spec: `createErrorTy`, the canonical sentinel error type. -/
def createErrorTy : TypeId := .error

/-- Modelled from the spec: `createFunctionTy(paramTypes, returnType)`, no arity limit. -/
def createFunctionTy (paramTypes : List TypeId) (returnType : TypeId) : TypeId :=
  .function paramTypes returnType

/-- Modelled from the spec: predicate `isIntegerTy`. -/
def isIntegerTy : TypeId → Bool
  | .integer => true
  | _ => false

/-- Modelled from the spec: predicate `isFloatTy`. -/
def isFloatTy : TypeId → Bool
  | .float => true
  | _ => false

/-- Modelled from the spec: predicate `isBooleanTy`. -/
def isBooleanTy : TypeId → Bool
  | .boolean => true
  | _ => false

/-- Modelled from the spec: predicate `isCharacterTy`. -/
def isCharacterTy : TypeId → Bool
  | .character => true
  | _ => false

/-- Modelled from the spec: predicate `isErrorTy`. -/
def isErrorTy : TypeId → Bool
  | .error => true
  | _ => false

/-- Modelled from the spec: predicate `isArrayTy`. -/
def isArrayTy : TypeId → Bool
  | .array _ _ _ => true
  | _ => false

/-- Modelled from the spec: predicate `isFunctionTy`. -/
def isFunctionTy : TypeId → Bool
  | .function _ _ => true
  | _ => false

/-- Modelled from the spec: predicate `isVoidFunction`, a function type whose return type
is `void`. -/
def isVoidFunction : TypeId → Bool
  | .function _ .void => true
  | _ => false

/-- Modelled from the spec: `isPrimitiveTy` (integer/float/boolean/character). -/
def isPrimitiveTy (t : TypeId) : Bool :=
  isIntegerTy t || isFloatTy t || isBooleanTy t || isCharacterTy t

/-- Modelled from the spec: `isNumericTy` (integer or float). -/
def isNumericTy (t : TypeId) : Bool :=
  isIntegerTy t || isFloatTy t

mutual
/-- Modelled from the spec: `equalTypes(a,b)`, structural equality in which `error`
equals nothing, itself included; two arrays are equal only if element types and sizes
match and they stem from the same declaration. -/
def equalTypes : TypeId → TypeId → Bool
  | .integer, .integer => true
  | .float, .float => true
  | .boolean, .boolean => true
  | .character, .character => true
  | .void, .void => true
  | .array e1 n1 d1, .array e2 n2 d2 => equalTypes e1 e2 && n1 == n2 && d1 == d2
  | .function p1 r1, .function p2 r2 => equalTypesList p1 p2 && equalTypes r1 r2
  | _, _ => false
/-- Modelled from the spec: `equalTypes` lifted pointwise to two parameter lists. -/
def equalTypesList : List TypeId → List TypeId → Bool
  | [], [] => true
  | a :: as, b :: bs => equalTypes a b && equalTypesList as bs
  | _, _ => false
end

/-- Modelled from the spec: `copyableTypes(dst,src)`: equal primitive types, or `dst`
float and `src` integer; never arrays, never function types. -/
def copyableTypes (dst src : TypeId) : Bool :=
  (isPrimitiveTy dst && equalTypes dst src) || (isFloatTy dst && isIntegerTy src)

/-- Modelled from the spec: `comparableTypes(a,b,operator)`: both numeric, or both the
same primitive type for the equality-only operators. -/
def comparableTypes (a b : TypeId) (oper : String) : Bool :=
  (isNumericTy a && isNumericTy b) ||
    ((oper == "==" || oper == "!=") && isPrimitiveTy a && equalTypes a b)

/-- Modelled from the spec: `getArrayElemType`.  The spec leaves the result undefined on
a type that is not an array; the model answers `error` there. -/
def getArrayElemType : TypeId → TypeId
  | .array e _ _ => e
  | _ => .error

/-- Modelled from the spec: `getFuncReturnType`.  The spec leaves the result undefined
on a type that is not a function; the model answers `error` there. -/
def getFuncReturnType : TypeId → TypeId
  | .function _ r => r
  | _ => .error

/-- Modelled from the spec: `getNumOfParameters`.  The spec leaves the result undefined
on a type that is not a function; the model answers `0` there. -/
def getNumOfParameters : TypeId → Nat
  | .function ps _ => ps.length
  | _ => 0

/-- Modelled from the spec: `getParameterType(t,i)`.  The spec leaves the result
undefined on a type that is not a function or on an index out of range; the model
answers `error` there. -/
def getParameterType : TypeId → Nat → TypeId
  | .function ps _, i => ps.getD i .error
  | _, _ => .error

end TypesMgr

/-! ## Scoped symbol table -/

/-- Identifier of a scope (`SymTable::ScopeId`). -/
abbrev ScopeId := Nat

/-- Modelled from the spec: the kind of a symbol (section 3, Symbol). -/
inductive SymbolClass where
  | variable
  | function
  | parameter
  deriving DecidableEq

/-- Modelled from the spec: a symbol is a name, a type and a kind. -/
structure Symbol where
  ident : String
  type : TypeId
  cls : SymbolClass

/-- Modelled from the spec: a scope owns a mapping from identifiers to symbols; the
first entry for a name is the symbol of that name. -/
structure Scope where
  symbols : List Symbol

/-- Modelled from the spec: the symbol a scope holds for a name, if any. -/
def Scope.findSymbol (s : Scope) (ident : String) : Option Symbol :=
  s.symbols.find? (fun sym => sym.ident == ident)

/-- Modelled from the spec: state of `SymTable` (section 4.2): the scopes created by the
earlier scope-assignment pass, addressed by `ScopeId`; the stack of active scopes,
innermost first; and the single `CurrentFunctionType` slot. -/
structure SymTable where
  scopes : List Scope
  stack : List ScopeId
  currentFunctionTy : TypeId

namespace SymTable

/-- Modelled from the spec: the scope a `ScopeId` refers to (an empty scope for an
identifier the earlier pass never created). -/
def scopeOf (S : SymTable) (sc : ScopeId) : Scope :=
  S.scopes.getD sc ⟨[]⟩

/-- Modelled from the spec: `pushThisScope(scopeId)` activates a scope on top of the
stack. -/
def pushThisScope (S : SymTable) (sc : ScopeId) : SymTable :=
  { S with stack := sc :: S.stack }

/-- Modelled from the spec: `popScope()` deactivates the innermost scope. -/
def popScope (S : SymTable) : SymTable :=
  { S with stack := S.stack.tail }

/-- Modelled from the spec: search of a name through a stack of scopes, innermost
first; the nearest declaration wins. -/
def findIn (S : SymTable) (ident : String) : List ScopeId → Option (ScopeId × Symbol)
  | [] => none
  | sc :: rest =>
    match (S.scopeOf sc).findSymbol ident with
    | some sym => some (sc, sym)
    | none => findIn S ident rest

/-- Modelled from the spec: `findInStack(name)` tells whether the name is declared in an
active scope.  The listener compares the answer with `-1`, so the model answers `-1`
when the name is not found and the identifier of the scope holding it otherwise. -/
def findInStack (S : SymTable) (ident : String) : Int :=
  match S.findIn ident S.stack with
  | some (sc, _) => (sc : Int)
  | none => -1

/-- Modelled from the spec: `getType(name)`, the type of the nearest declaration.  It is
valid only after a successful `findInStack`; the model answers `error` otherwise. -/
def getType (S : SymTable) (ident : String) : TypeId :=
  match S.findIn ident S.stack with
  | some (_, sym) => sym.type
  | none => .error

/-- Modelled from the spec: `isFunctionClass(name)`, whether the nearest declaration is
a function symbol.  It is valid only after a successful `findInStack`; the model answers
`false` otherwise. -/
def isFunctionClass (S : SymTable) (ident : String) : Bool :=
  match S.findIn ident S.stack with
  | some (_, sym) => decide (sym.cls = SymbolClass.function)
  | none => false

/-- Modelled from the spec: `setCurrentFunctionTy(t)` overwrites the single slot. -/
def setCurrentFunctionTy (S : SymTable) (t : TypeId) : SymTable :=
  { S with currentFunctionTy := t }

/-- Modelled from the spec: `getCurrentFunctionTy()` reads the single slot. -/
def getCurrentFunctionTy (S : SymTable) : TypeId :=
  S.currentFunctionTy

/-- Modelled from the spec: `noMainProperlyDeclared()` is true if the global scope, the
outermost active scope, lacks a zero-parameter, void-returning symbol named `main`. -/
def noMainProperlyDeclared (S : SymTable) : Bool :=
  match S.stack.getLast? with
  | none => true
  | some g =>
    match (S.scopeOf g).findSymbol "main" with
    | some sym =>
      !(TypesMgr.isVoidFunction sym.type && TypesMgr.getNumOfParameters sym.type == 0)
    | none => true

end SymTable

/-! ## Decoration store -/

/-- Modelled from the spec: the decoration store (section 4.3), a side table from node
identity to the scope, the type and the lvalue flag attached to the node.  The getters
are only meant for facts already attached; the model makes the table total, so that
the content read for a node nobody wrote is whatever the initial table holds. -/
structure TreeDecoration where
  scope : Node → ScopeId
  type : Node → TypeId
  isLValue : Node → Bool

namespace TreeDecoration

/-- Modelled from the spec: `getScope`. -/
def getScope (D : TreeDecoration) (ctx : Node) : ScopeId := D.scope ctx

/-- Modelled from the spec: `getType`. -/
def getType (D : TreeDecoration) (ctx : Node) : TypeId := D.type ctx

/-- Modelled from the spec: `getIsLValue`. -/
def getIsLValue (D : TreeDecoration) (ctx : Node) : Bool := D.isLValue ctx

/-- Modelled from the spec: `putScope`. -/
def putScope (D : TreeDecoration) (ctx : Node) (s : ScopeId) : TreeDecoration :=
  { D with scope := fun n => if n = ctx then s else D.scope n }

/-- Modelled from the spec: `putType`. -/
def putType (D : TreeDecoration) (ctx : Node) (t : TypeId) : TreeDecoration :=
  { D with type := fun n => if n = ctx then t else D.type n }

/-- Modelled from the spec: `putIsLValue`. -/
def putIsLValue (D : TreeDecoration) (ctx : Node) (b : Bool) : TreeDecoration :=
  { D with isLValue := fun n => if n = ctx then b else D.isLValue n }

end TreeDecoration

/-! ## Error collector -/

/-- Modelled from the spec: a semantic error, one constructor per kind of the catalogue
(section 7), each with the node or token it is reported at.  `incompatibleParameter`
also carries the 1-based position of the argument and the call node. -/
inductive SemError where
  | undeclaredIdent (at_ : Node)
  | nonArrayInArrayAccess (at_ : Node)
  | nonIntegerIndexInArrayAccess (at_ : Node)
  | nonReferenceableLeftExpr (at_ : Node)
  | nonReferenceableExpression (at_ : Node)
  | incompatibleAssignment (at_ : Node)
  | booleanRequired (at_ : Node)
  | incompatibleOperator (at_ : Node)
  | incompatibleReturn (at_ : Node)
  | readWriteRequireBasic (at_ : Node)
  | isNotCallable (at_ : Node)
  | isNotFunction (at_ : Node)
  | numberOfParameters (at_ : Node)
  | incompatibleParameter (at_ : Node) (n : Nat) (call : Node)
  | noMainProperlyDeclared (at_ : Node)
  deriving DecidableEq

/-- Modelled from the spec: state of the error collector (section 4.4): the errors in
insertion order, and what each call of `print()` has emitted so far. -/
structure SemErrors where
  errors : List SemError
  printed : List (List SemError)

namespace SemErrors

/-- Modelled from the spec: appending one error; insertion order is preserved. -/
def add (E : SemErrors) (e : SemError) : SemErrors :=
  { E with errors := E.errors ++ [e] }

/-- Modelled from the spec: `print()` emits all collected errors in insertion order. -/
def print (E : SemErrors) : SemErrors :=
  { E with printed := E.printed ++ [E.errors] }

end SemErrors

/-! ## Parse-tree contexts

Each context records the identity of the node itself and what the ANTLR accessors used
by the listener return for it: a child node (`nullptr` when absent) or the list of
children of one kind. -/

/-- Context of the `program` rule. -/
structure ProgramContext where
  node : Node

/-- Context of one parameter declaration of a function header. -/
structure Parameter_declContext where
  node : Node
  type : Node
  array_decl : Node
  ID : List Node

/-- Context of the parameter list of a function header. -/
structure ParametersContext where
  node : Node
  parameter_decl : List Parameter_declContext

/-- Context of the `function` rule. -/
structure FunctionContext where
  node : Node
  type : Node
  parameters : ParametersContext

/-- Context of an assignment statement. -/
structure AssignStmtContext where
  node : Node
  left_expr : Node
  expr : Node
  ident : Node
  ASSIGN : Node

/-- Context of an `if` statement. -/
structure IfStmtContext where
  node : Node
  expr : Node

/-- Context of a `while` statement. -/
structure WhileStmtContext where
  node : Node
  expr : Node

/-- Context of a read statement. -/
structure ReadStmtContext where
  node : Node
  left_expr : Node

/-- Context of a write-expression statement. -/
structure WriteExprContext where
  node : Node
  expr : Node

/-- Context of a return statement. -/
structure ReturnExpr_Context where
  node : Node
  expr : Node
  RETURN : Node

/-- Context of a left expression. -/
structure Left_exprContext where
  node : Node
  ident : Node
  INTVAL : Node
  expr : Node

/-- Context of an arithmetic expression. -/
structure ArithmeticContext where
  node : Node
  exprs : List Node
  op : Token
  MOD : Node

/-- Accessor `ctx->expr(i)`: the i-th operand, `nullptr` when there is none. -/
def ArithmeticContext.expr (ctx : ArithmeticContext) (i : Nat) : Node :=
  ctx.exprs.getD i nullptr

/-- Context of a relational or boolean expression. -/
structure RelationalContext where
  node : Node
  exprs : List Node
  op : Token
  NOT : Node
  AND : Node
  OR : Node

/-- Accessor `ctx->expr(i)`: the i-th operand, `nullptr` when there is none. -/
def RelationalContext.expr (ctx : RelationalContext) (i : Nat) : Node :=
  ctx.exprs.getD i nullptr

/-- Context of a literal value. -/
structure ValueContext where
  node : Node
  INTVAL : Node
  FLOATVAL : Node
  CHARVAL : Node
  BOOLVAL : Node

/-- Context of a call `ident(expr, ...)`. -/
structure ProcedureContext where
  node : Node
  ident : Node
  exprs : List Node

/-- Accessor `ctx->expr(i)`: the i-th argument, `nullptr` when there is none. -/
def ProcedureContext.expr (ctx : ProcedureContext) (i : Nat) : Node :=
  ctx.exprs.getD i nullptr

/-- Context of a call used as a statement. -/
structure ProcCallContext where
  node : Node
  procedure : ProcedureContext

/-- Context of a call used as an expression. -/
structure ProcExprContext where
  node : Node
  procedure : ProcedureContext

/-- Context of an identifier expression, possibly indexed. -/
structure ExprIdentContext where
  node : Node
  ident : Node
  INTVAL : Node
  expr : Node

/-- Context of a parenthesised expression. -/
structure ParenthesisContext where
  node : Node
  expr : Node

/-- Context of an identifier. -/
structure IdentContext where
  node : Node
  text : String
  ID : Node

/-- Text of an identifier node (`ctx->getText()`). -/
def IdentContext.getText (ctx : IdentContext) : String := ctx.text

/-! ## The listener -/

/-- State of `TypeCheckListener`: the collaborators it mutates. -/
structure TypeCheckListener where
  Symbols : SymTable
  Decorations : TreeDecoration
  Errors : SemErrors

namespace TypeCheckListener

open TypesMgr

/-- Getter `getScopeDecor` (source lines 489-491). -/
def getScopeDecor (L : TypeCheckListener) (ctx : Node) : ScopeId :=
  L.Decorations.getScope ctx

/-- Getter `getTypeDecor` (source lines 492-494). -/
def getTypeDecor (L : TypeCheckListener) (ctx : Node) : TypeId :=
  L.Decorations.getType ctx

/-- Getter `getIsLValueDecor` (source lines 495-497). -/
def getIsLValueDecor (L : TypeCheckListener) (ctx : Node) : Bool :=
  L.Decorations.getIsLValue ctx

/-- Setter `putScopeDecor` (source lines 501-503). -/
def putScopeDecor (L : TypeCheckListener) (ctx : Node) (s : ScopeId) : TypeCheckListener :=
  { L with Decorations := L.Decorations.putScope ctx s }

/-- Setter `putTypeDecor` (source lines 504-506). -/
def putTypeDecor (L : TypeCheckListener) (ctx : Node) (t : TypeId) : TypeCheckListener :=
  { L with Decorations := L.Decorations.putType ctx t }

/-- Setter `putIsLValueDecor` (source lines 507-509). -/
def putIsLValueDecor (L : TypeCheckListener) (ctx : Node) (b : Bool) : TypeCheckListener :=
  { L with Decorations := L.Decorations.putIsLValue ctx b }

/-- A call `Errors.kind(...)`: the error is appended to the collector. -/
def report (L : TypeCheckListener) (e : SemError) : TypeCheckListener :=
  { L with Errors := L.Errors.add e }

/-- The diagnostics collected so far, in insertion order. -/
def diagnostics (L : TypeCheckListener) : List SemError :=
  L.Errors.errors

/-- Rule `enterProgram` (source lines 60-65). -/
def enterProgram (ctx : ProgramContext) (L0 : TypeCheckListener) : TypeCheckListener := Id.run do
  let mut L := L0
  let sc := L.getScopeDecor ctx.node
  L := { L with Symbols := L.Symbols.pushThisScope sc }
  return L

/-- Rule `exitProgram` (source lines 66-72). -/
def exitProgram (ctx : ProgramContext) (L0 : TypeCheckListener) : TypeCheckListener := Id.run do
  let mut L := L0
  if L.Symbols.noMainProperlyDeclared then
    L := L.report (.noMainProperlyDeclared ctx.node)
  L := { L with Symbols := L.Symbols.popScope }
  L := { L with Errors := L.Errors.print }
  return L

/-- Body of the outer loop of `enterFunction` (source lines 81-88) for one parameter
declaration: the type of the declaration is pushed once per declared identifier.
`indeterminate` stands for the content of the uninitialised local `parameterType` when
the declaration has neither a `type` nor an `array_decl` child. -/
def enterFunctionParams (L : TypeCheckListener) (indeterminate : TypeId)
    (lParamsTy : List TypeId) (params : Parameter_declContext) : List TypeId := Id.run do
  let mut lParamsTy := lParamsTy
  let mut parameterType := indeterminate
  if params.type != nullptr then parameterType := L.getTypeDecor params.type
  else if params.array_decl != nullptr then parameterType := L.getTypeDecor params.array_decl
  lParamsTy := params.ID.foldl (fun acc _ => acc ++ [parameterType]) lParamsTy
  return lParamsTy

/-- Rule `enterFunction` (source lines 74-91). -/
def enterFunction (ctx : FunctionContext) (indeterminate : TypeId)
    (L0 : TypeCheckListener) : TypeCheckListener := Id.run do
  let mut L := L0
  let sc := L.getScopeDecor ctx.node
  L := { L with Symbols := L.Symbols.pushThisScope sc }
  let ret := L.getTypeDecor ctx.type
  let paramList := ctx.parameters
  let lParamsTy := paramList.parameter_decl.foldl (enterFunctionParams L indeterminate) []
  let t := createFunctionTy lParamsTy ret
  L := { L with Symbols := L.Symbols.setCurrentFunctionTy t }
  return L

/-- Rule `exitFunction` (source lines 93-96). -/
def exitFunction (_ctx : FunctionContext) (L0 : TypeCheckListener) : TypeCheckListener :=
  { L0 with Symbols := L0.Symbols.popScope }

/-- Rule `exitAssignStmt` (source lines 129-156). -/
def exitAssignStmt (ctx : AssignStmtContext) (L0 : TypeCheckListener) : TypeCheckListener := Id.run do
  let mut L := L0
  let t1 := L.getTypeDecor ctx.left_expr
  let mut t2 := L.getTypeDecor ctx.expr
  if ctx.ident != nullptr then
    let mut isNotArray := false
    if ctx.expr != nullptr && !isNumericTy t2 then isNotArray := true
    t2 := L.getTypeDecor ctx.ident
    if !isErrorTy t2 then
      if !isArrayTy t2 then
        L := L.report (.nonArrayInArrayAccess ctx.ident)
        t2 := createErrorTy
      else t2 := getArrayElemType t2
      if isNotArray then
        L := L.report (.nonIntegerIndexInArrayAccess ctx.expr)
        t2 := createErrorTy
  if (!isErrorTy t1) && (!L.getIsLValueDecor ctx.left_expr) then
    L := L.report (.nonReferenceableLeftExpr ctx.left_expr)
  if (!isErrorTy t1) && (!isErrorTy t2) && (!copyableTypes t1 t2) then
    L := L.report (.incompatibleAssignment ctx.ASSIGN)
  return L

/-- Rule `exitIfStmt` (source lines 161-166). -/
def exitIfStmt (ctx : IfStmtContext) (L0 : TypeCheckListener) : TypeCheckListener := Id.run do
  let mut L := L0
  let t1 := L.getTypeDecor ctx.expr
  if (!isErrorTy t1) && (!isBooleanTy t1) then
    L := L.report (.booleanRequired ctx.node)
  return L

/-- Rule `exitWhileStmt` (source lines 171-176). -/
def exitWhileStmt (ctx : WhileStmtContext) (L0 : TypeCheckListener) : TypeCheckListener := Id.run do
  let mut L := L0
  let t1 := L.getTypeDecor ctx.expr
  if (!isErrorTy t1) && (!isBooleanTy t1) then
    L := L.report (.booleanRequired ctx.node)
  return L

/-- Rule `exitProcCall` (source lines 183-188). -/
def exitProcCall (ctx : ProcCallContext) (L0 : TypeCheckListener) : TypeCheckListener := Id.run do
  let mut L := L0
  let retType := L.getTypeDecor ctx.procedure.node
  L := L.putTypeDecor ctx.node retType
  return L

/-- Rule `exitReadStmt` (source lines 192-200). -/
def exitReadStmt (ctx : ReadStmtContext) (L0 : TypeCheckListener) : TypeCheckListener := Id.run do
  let mut L := L0
  let t1 := L.getTypeDecor ctx.left_expr
  if (!isErrorTy t1) && (!isPrimitiveTy t1) && (!isFunctionTy t1) then
    L := L.report (.readWriteRequireBasic ctx.node)
  if (!isErrorTy t1) && (!L.getIsLValueDecor ctx.left_expr) then
    L := L.report (.nonReferenceableExpression ctx.node)
  return L

/-- Rule `exitWriteExpr` (source lines 205-210). -/
def exitWriteExpr (ctx : WriteExprContext) (L0 : TypeCheckListener) : TypeCheckListener := Id.run do
  let mut L := L0
  let t1 := L.getTypeDecor ctx.expr
  if (!isErrorTy t1) && (!isPrimitiveTy t1) then
    L := L.report (.readWriteRequireBasic ctx.node)
  return L

/-- Rule `exitReturnExpr_` (source lines 216-228). -/
def exitReturnExpr_ (ctx : ReturnExpr_Context) (L0 : TypeCheckListener) : TypeCheckListener := Id.run do
  let mut L := L0
  let tf := L.Symbols.getCurrentFunctionTy
  if isVoidFunction tf then
    if ctx.expr != nullptr then L := L.report (.incompatibleReturn ctx.RETURN)
  else
    let t1 := L.getTypeDecor ctx.expr
    let t2 := getFuncReturnType tf
    if (!(isIntegerTy t1 && isFloatTy t2)) && (!equalTypes t1 t2) then
      L := L.report (.incompatibleReturn ctx.RETURN)
  return L

/-- Rule `exitLeft_expr` (source lines 240-266). -/
def exitLeft_expr (ctx : Left_exprContext) (L0 : TypeCheckListener) : TypeCheckListener := Id.run do
  let mut L := L0
  let mut t := L.getTypeDecor ctx.ident
  if ctx.INTVAL != nullptr || ctx.expr != nullptr then
    if !isArrayTy t then
      if !isErrorTy t then L := L.report (.nonArrayInArrayAccess ctx.ident)
      t := createErrorTy
    else t := getArrayElemType t
    if ctx.expr != nullptr then
      let t1 := L.getTypeDecor ctx.expr
      if !isNumericTy t1 then
        t := createErrorTy
        L := L.report (.nonIntegerIndexInArrayAccess ctx.expr)
  L := L.putTypeDecor ctx.node t
  let b := L.getIsLValueDecor ctx.ident
  L := L.putIsLValueDecor ctx.node b
  return L

/-- Rule `exitArithmetic` (source lines 271-301). -/
def exitArithmetic (ctx : ArithmeticContext) (L0 : TypeCheckListener) : TypeCheckListener := Id.run do
  let mut L := L0
  let t1 := L.getTypeDecor (ctx.expr 0)
  let mut t := createFloatTy
  if ctx.expr 1 != nullptr then
    let t2 := L.getTypeDecor (ctx.expr 1)
    if (!isErrorTy t1) && (!isErrorTy t2) &&
        ((!isNumericTy t1) || (!isNumericTy t2)) then
      t := createIntegerTy
      L := L.report (.incompatibleOperator ctx.op.node)
    else if (!isErrorTy t1) && (!isErrorTy t2) && ctx.MOD != nullptr
        && ((!isIntegerTy t1) || (!isIntegerTy t2)) then
      t := createIntegerTy
      L := L.report (.incompatibleOperator ctx.op.node)
    else if isIntegerTy t1 && isIntegerTy t2 then t := createIntegerTy
    if isErrorTy t1 || isErrorTy t2 then t := createErrorTy
  else
    if !isErrorTy t1 && (!isNumericTy t1) then
      L := L.report (.incompatibleOperator ctx.op.node)
      t := createIntegerTy
    else
      if isIntegerTy t1 then t := createIntegerTy
  L := L.putTypeDecor ctx.node t
  L := L.putIsLValueDecor ctx.node false
  return L

/-- Rule `exitRelational` (source lines 306-330). -/
def exitRelational (ctx : RelationalContext) (L0 : TypeCheckListener) : TypeCheckListener := Id.run do
  let mut L := L0
  let t1 := L.getTypeDecor (ctx.expr 0)
  let t := createBooleanTy
  if ctx.NOT != nullptr then
    if (!isErrorTy t1) && (!isBooleanTy t1) then
      L := L.report (.booleanRequired ctx.node)
  else if ctx.AND != nullptr || ctx.OR != nullptr then
    let t2 := L.getTypeDecor (ctx.expr 1)
    if ((!isErrorTy t1) && (!isBooleanTy t1)) || ((!isErrorTy t2) && (!isBooleanTy t2)) then
      L := L.report (.incompatibleOperator ctx.op.node)
  else
    let t2 := L.getTypeDecor (ctx.expr 1)
    let oper := ctx.op.getText
    if (!isErrorTy t1) && (!isErrorTy t2) && (!comparableTypes t1 t2 oper) then
      L := L.report (.incompatibleOperator ctx.op.node)
  L := L.putTypeDecor ctx.node t
  L := L.putIsLValueDecor ctx.node false
  return L

/-- Rule `exitValue` (source lines 335-360). -/
def exitValue (ctx : ValueContext) (L0 : TypeCheckListener) : TypeCheckListener := Id.run do
  let mut L := L0
  let t :=
    if ctx.INTVAL != nullptr then createIntegerTy
    else if ctx.FLOATVAL != nullptr then createFloatTy
    else if ctx.CHARVAL != nullptr then createCharacterTy
    else if ctx.BOOLVAL != nullptr then createBooleanTy
    else createErrorTy
  L := L.putTypeDecor ctx.node t
  L := L.putIsLValueDecor ctx.node false
  return L

/-- Body of the loop of `exitProcedure` (source lines 380-384) for the argument at
position `i` (0-based) of a call to a callee of type `t`. -/
def exitProcedureArg (ctx : ProcedureContext) (t : TypeId)
    (L : TypeCheckListener) (i : Nat) : TypeCheckListener :=
  let expressionType := L.getTypeDecor (ctx.expr i)
  let realType := getParameterType t i
  if (!equalTypes expressionType realType) &&
      ((!isFloatTy realType) || (!isIntegerTy expressionType)) then
    L.report (.incompatibleParameter (ctx.expr i) (i + 1) ctx.node)
  else L

/-- Rule `exitProcedure` (source lines 366-392).  The loop
`for (i = 0; i < ctx->expr().size(); i++)` runs its body for `i = 0, 1, ...` below the
number of arguments, which the body does not change; the counter is a natural number,
the number of arguments of a call being far below the range of `unsigned int`. -/
def exitProcedure (ctx : ProcedureContext) (L0 : TypeCheckListener) : TypeCheckListener := Id.run do
  let mut L := L0
  let t := L.getTypeDecor ctx.ident
  if !isFunctionTy t && !isErrorTy t then
    L := L.report (.isNotCallable ctx.ident)
    L := L.putTypeDecor ctx.node createErrorTy
  else if isErrorTy t then
    L := L.putTypeDecor ctx.node createErrorTy
  else if isFunctionTy t then
    let t1 := getFuncReturnType t
    if ctx.exprs.length != getNumOfParameters t then
      L := L.report (.numberOfParameters ctx.ident)
    else
      L := (List.range ctx.exprs.length).foldl (exitProcedureArg ctx t) L
    L := L.putTypeDecor ctx.node t1
  return L

/-- Rule `exitProcExpr` (source lines 397-407). -/
def exitProcExpr (ctx : ProcExprContext) (L0 : TypeCheckListener) : TypeCheckListener := Id.run do
  let mut L := L0
  let mut t := L.getTypeDecor ctx.procedure.node
  if !isErrorTy t then
    if isVoidFunction (L.getTypeDecor ctx.procedure.ident) then
      L := L.report (.isNotFunction ctx.procedure.ident)
      t := createErrorTy
  L := L.putTypeDecor ctx.node t
  return L

/-- Rule `exitExprIdent` (source lines 412-438). -/
def exitExprIdent (ctx : ExprIdentContext) (L0 : TypeCheckListener) : TypeCheckListener := Id.run do
  let mut L := L0
  let mut t := L.getTypeDecor ctx.ident
  if ctx.INTVAL != nullptr || ctx.expr != nullptr then
    if !isArrayTy t then
      t := createErrorTy
      L := L.report (.nonArrayInArrayAccess ctx.ident)
    else t := getArrayElemType t
    if ctx.expr != nullptr then
      let t1 := L.getTypeDecor ctx.expr
      if !isNumericTy t1 then
        t := createErrorTy
        L := L.report (.nonIntegerIndexInArrayAccess ctx.expr)
  L := L.putTypeDecor ctx.node t
  let b := L.getIsLValueDecor ctx.ident
  L := L.putIsLValueDecor ctx.node b
  return L

/-- Rule `exitParenthesis` (source lines 444-449). -/
def exitParenthesis (ctx : ParenthesisContext) (L0 : TypeCheckListener) : TypeCheckListener := Id.run do
  let mut L := L0
  let t := L.getTypeDecor ctx.expr
  L := L.putTypeDecor ctx.node t
  L := L.putIsLValueDecor ctx.node false
  return L

/-- Rule `exitIdent` (source lines 455-472). -/
def exitIdent (ctx : IdentContext) (L0 : TypeCheckListener) : TypeCheckListener := Id.run do
  let mut L := L0
  let ident := ctx.getText
  if L.Symbols.findInStack ident == -1 then
    L := L.report (.undeclaredIdent ctx.ID)
    let te := createErrorTy
    L := L.putTypeDecor ctx.node te
    L := L.putIsLValueDecor ctx.node true
  else
    let t1 := L.Symbols.getType ident
    L := L.putTypeDecor ctx.node t1
    if L.Symbols.isFunctionClass ident then
      L := L.putIsLValueDecor ctx.node false
    else
      L := L.putIsLValueDecor ctx.node true
  return L

/-! ## Notions used to state the properties -/

/-- The types of the operands of an arithmetic node, as decorated before the rule runs:
two for a binary node (`ctx->expr(1)` present), one for a unary node. -/
def operandTypes (ctx : ArithmeticContext) (L : TypeCheckListener) : List TypeId :=
  if ctx.expr 1 ≠ nullptr then [L.getTypeDecor (ctx.expr 0), L.getTypeDecor (ctx.expr 1)]
  else [L.getTypeDecor (ctx.expr 0)]

/-- A binary arithmetic node whose operator is `%`. -/
def isBinaryMod (ctx : ArithmeticContext) : Bool :=
  ctx.expr 1 != nullptr && ctx.MOD != nullptr

/-- Whether the argument at position `i` (0-based) of a call is rejected against the
parameter types `ps`: its type is not `equalTypes` to the i-th parameter type, and it
is not the case that the parameter is float and the argument is integer. -/
def argumentRejected (ctx : ProcedureContext) (L : TypeCheckListener) (ps : List TypeId)
    (i : Nat) : Bool :=
  !equalTypes (L.getTypeDecor (ctx.expr i)) (ps.getD i TypeId.error) &&
    !(isFloatTy (ps.getD i TypeId.error) && isIntegerTy (L.getTypeDecor (ctx.expr i)))

/-- The diagnostics of an indexed access whose base has type `base`, where `expr` is the
index expression (`nullptr` when the index is an integer literal) and `idx` its type:
`nonArrayInArrayAccess` at the identifier if the base is not an array, then
`nonIntegerIndexInArrayAccess` at the index expression if there is one and its type is
not numeric. -/
def accessFaults (ident expr : Node) (base idx : TypeId) : List SemError :=
  (if isArrayTy base then [] else [SemError.nonArrayInArrayAccess ident]) ++
    (if expr ≠ nullptr ∧ isNumericTy idx = false
      then [SemError.nonIntegerIndexInArrayAccess expr] else [])

/-- A sample decoration store: node 1 is typed `error`, 2 `boolean`, 3 `integer`,
4 `float`, 5 an array of ten integers, 6 a function from `(float, integer)` to `integer`,
7 a procedure without parameters, 8 `character`, every other node `void`; every node
except 6 and 7 is an lvalue. -/
def sampleDecorations : TreeDecoration where
  scope := fun _ => 0
  type := fun n =>
    match n with
    | 1 => .error
    | 2 => .boolean
    | 3 => .integer
    | 4 => .float
    | 5 => .array .integer 10 0
    | 6 => .function [.float, .integer] .integer
    | 7 => .function [] .void
    | 8 => .character
    | _ => .void
  isLValue := fun n => n != 6 && n != 7

/-- A sample symbol table: a global scope declaring the function `f` of node 6, an
integer variable `x` and the procedure `main`; the global scope is active and the
current function is `currentFunctionTy`. -/
def sampleSymbols (currentFunctionTy : TypeId) : SymTable where
  scopes := [⟨[⟨"f", .function [.float, .integer] .integer, .function⟩,
               ⟨"x", .integer, .variable⟩,
               ⟨"main", .function [] .void, .function⟩]⟩]
  stack := [0]
  currentFunctionTy := currentFunctionTy

/-- A sample listener state inside a function of type `currentFunctionTy`, with one
diagnostic already collected. -/
def sampleListener (currentFunctionTy : TypeId) : TypeCheckListener where
  Symbols := sampleSymbols currentFunctionTy
  Decorations := sampleDecorations
  Errors := ⟨[.undeclaredIdent 1], []⟩

/-! ## The traversal -/

/-- Modelled from the spec: the rules the tree walker fires on the nodes inside a
function body (section 4.5), each with the context of its node.  `debugOnly` stands for
any rule of the listener whose body holds nothing but the debugging statements (every
`enter...` rule other than `enterProgram` and `enterFunction`, and the `exit...` rules of
declarations, types, statement lists and string writes). -/
inductive BodyRule where
  | debugOnly
  | exitAssignStmt (ctx : AssignStmtContext)
  | exitIfStmt (ctx : IfStmtContext)
  | exitWhileStmt (ctx : WhileStmtContext)
  | exitProcCall (ctx : ProcCallContext)
  | exitReadStmt (ctx : ReadStmtContext)
  | exitWriteExpr (ctx : WriteExprContext)
  | exitReturnExpr_ (ctx : ReturnExpr_Context)
  | exitLeft_expr (ctx : Left_exprContext)
  | exitArithmetic (ctx : ArithmeticContext)
  | exitRelational (ctx : RelationalContext)
  | exitValue (ctx : ValueContext)
  | exitProcedure (ctx : ProcedureContext)
  | exitProcExpr (ctx : ProcExprContext)
  | exitExprIdent (ctx : ExprIdentContext)
  | exitParenthesis (ctx : ParenthesisContext)
  | exitIdent (ctx : IdentContext)

/-- The effect of firing one body rule on the listener. -/
def BodyRule.fire : BodyRule → TypeCheckListener → TypeCheckListener
  | .debugOnly, L => L
  | .exitAssignStmt ctx, L => TypeCheckListener.exitAssignStmt ctx L
  | .exitIfStmt ctx, L => TypeCheckListener.exitIfStmt ctx L
  | .exitWhileStmt ctx, L => TypeCheckListener.exitWhileStmt ctx L
  | .exitProcCall ctx, L => TypeCheckListener.exitProcCall ctx L
  | .exitReadStmt ctx, L => TypeCheckListener.exitReadStmt ctx L
  | .exitWriteExpr ctx, L => TypeCheckListener.exitWriteExpr ctx L
  | .exitReturnExpr_ ctx, L => TypeCheckListener.exitReturnExpr_ ctx L
  | .exitLeft_expr ctx, L => TypeCheckListener.exitLeft_expr ctx L
  | .exitArithmetic ctx, L => TypeCheckListener.exitArithmetic ctx L
  | .exitRelational ctx, L => TypeCheckListener.exitRelational ctx L
  | .exitValue ctx, L => TypeCheckListener.exitValue ctx L
  | .exitProcedure ctx, L => TypeCheckListener.exitProcedure ctx L
  | .exitProcExpr ctx, L => TypeCheckListener.exitProcExpr ctx L
  | .exitExprIdent ctx, L => TypeCheckListener.exitExprIdent ctx L
  | .exitParenthesis ctx, L => TypeCheckListener.exitParenthesis ctx L
  | .exitIdent ctx, L => TypeCheckListener.exitIdent ctx L

/-- The node whose type or lvalue decoration a body rule writes, if it writes any: the
expression rules decorate their own node, the statement rules decorate nothing. -/
def BodyRule.decorated : BodyRule → Option Node
  | .exitProcCall ctx => some ctx.node
  | .exitLeft_expr ctx => some ctx.node
  | .exitArithmetic ctx => some ctx.node
  | .exitRelational ctx => some ctx.node
  | .exitValue ctx => some ctx.node
  | .exitProcedure ctx => some ctx.node
  | .exitProcExpr ctx => some ctx.node
  | .exitExprIdent ctx => some ctx.node
  | .exitParenthesis ctx => some ctx.node
  | .exitIdent ctx => some ctx.node
  | _ => none

/-- Firing a sequence of body rules in order. -/
def walkBody (body : List BodyRule) (L : TypeCheckListener) : TypeCheckListener :=
  body.foldl (fun acc r => r.fire acc) L

/-- Modelled from the spec: the walk of one function: its context, the content of the
uninitialised local of `enterFunction`, and the rules fired between `enterFunction` and
`exitFunction`. -/
structure FunctionWalk where
  ctx : FunctionContext
  indeterminate : TypeId
  body : List BodyRule

/-- The rules of one function walk, in order: `enterFunction`, the body, `exitFunction`. -/
def walkFunction (f : FunctionWalk) (L : TypeCheckListener) : TypeCheckListener :=
  exitFunction f.ctx (walkBody f.body (enterFunction f.ctx f.indeterminate L))

/-- The walks of a sequence of non-nested functions, one after the other. -/
def walkFunctions (fs : List FunctionWalk) (L : TypeCheckListener) : TypeCheckListener :=
  fs.foldl (fun acc f => walkFunction f acc) L

/-- Modelled from the spec: a well-formed traversal of a program (section 4.5,
`Start -> InProgramScope -> (InFunctionScope)* -> Done`): the program node and the walks
of its functions. -/
structure ProgramWalk where
  ctx : ProgramContext
  functions : List FunctionWalk

/-- The rules of a program walk, in order: `enterProgram`, the functions,
`exitProgram`. -/
def walkProgram (p : ProgramWalk) (L : TypeCheckListener) : TypeCheckListener :=
  exitProgram p.ctx (walkFunctions p.functions (enterProgram p.ctx L))

/-- The diagnostics a step appended: what the collector holds after the step beyond
what it held before. -/
def emitted (before after : TypeCheckListener) : List SemError :=
  after.diagnostics.drop before.diagnostics.length

/-- The listener `L2` differs from `L1` at most by diagnostics appended to the collector
and by the type and lvalue decorations of the node `w`: the symbol table, the scope
decorations and the output of `print()` are the same. -/
def Frame (w : Option Node) (L1 L2 : TypeCheckListener) : Prop :=
  L2.Symbols = L1.Symbols ∧
  L2.Decorations.scope = L1.Decorations.scope ∧
  L2.Errors.printed = L1.Errors.printed ∧
  (∃ suffix, L2.Errors.errors = L1.Errors.errors ++ suffix) ∧
  ∀ n, some n ≠ w →
    L2.Decorations.type n = L1.Decorations.type n ∧
    L2.Decorations.isLValue n = L1.Decorations.isLValue n

/-- A sample listener state before a traversal: no scope is active, the only scope the
earlier pass created declares the integer variable `x` and no `main`, every node carries
scope 0 and the types of `sampleDecorations`, and nothing has been collected yet. -/
def sampleListenerNoMain : TypeCheckListener where
  Symbols := ⟨[⟨[⟨"x", .integer, .variable⟩]⟩], [], .void⟩
  Decorations := sampleDecorations
  Errors := ⟨[], []⟩

/-- A sample traversal: a program (node 100) with one function (node 101, no
parameters) whose body is the statement `if 5 then ...` (node 80, condition node 3). -/
def sampleProgramWalk : ProgramWalk where
  ctx := ⟨100⟩
  functions := [⟨⟨101, nullptr, ⟨102, []⟩⟩, .void, [.debugOnly, .exitIfStmt ⟨80, 3⟩]⟩]

/-! ## Elementary facts about the type predicates -/

theorem isIntegerTy_integer : isIntegerTy TypeId.integer = true := rfl

theorem isIntegerTy_float : isIntegerTy TypeId.float = false := rfl

theorem isIntegerTy_error : isIntegerTy TypeId.error = false := rfl

/-! ## Properties of `exitArithmetic` -/

/-- C1: for every binary arithmetic node in which at least one of the two operand types
is `error`, `exitArithmetic` writes type `error` for the node and emits no diagnostic,
whatever the operator (the `MOD` child is unconstrained) and whatever the other
operand's type. -/
theorem exitArithmetic_binary_error_operand (ctx : ArithmeticContext) (L : TypeCheckListener)
    (hbin : ctx.expr 1 ≠ nullptr)
    (herr : isErrorTy (L.getTypeDecor (ctx.expr 0)) = true ∨
      isErrorTy (L.getTypeDecor (ctx.expr 1)) = true) :
    (exitArithmetic ctx L).getTypeDecor ctx.node = createErrorTy ∧
    (exitArithmetic ctx L).diagnostics = L.diagnostics := by
  simp only [getTypeDecor, TreeDecoration.getType] at herr ⊢
  unfold exitArithmetic
  rcases herr with h | h <;>
  simp [Id.run, hbin, h, getTypeDecor, putTypeDecor, putIsLValueDecor, report, diagnostics,
    TreeDecoration.getType, TreeDecoration.putType, TreeDecoration.putIsLValue, SemErrors.add]

/-- Witness of C1: the node `e % b` with `e` of type `error` and `b` boolean. -/
theorem exitArithmetic_binary_error_operand_witness :
    (ArithmeticContext.mk 20 [1, 2] ⟨21, "%"⟩ 21).expr 1 ≠ nullptr ∧
    (isErrorTy ((sampleListener .void).getTypeDecor
        ((ArithmeticContext.mk 20 [1, 2] ⟨21, "%"⟩ 21).expr 0)) = true ∨
      isErrorTy ((sampleListener .void).getTypeDecor
        ((ArithmeticContext.mk 20 [1, 2] ⟨21, "%"⟩ 21).expr 1)) = true) ∧
    (exitArithmetic (ArithmeticContext.mk 20 [1, 2] ⟨21, "%"⟩ 21)
        (sampleListener .void)).getTypeDecor 20 = createErrorTy ∧
    (exitArithmetic (ArithmeticContext.mk 20 [1, 2] ⟨21, "%"⟩ 21)
        (sampleListener .void)).diagnostics = (sampleListener .void).diagnostics :=
  ⟨by decide, Or.inl rfl,
    exitArithmetic_binary_error_operand (ArithmeticContext.mk 20 [1, 2] ⟨21, "%"⟩ 21)
      (sampleListener .void) (by decide) (Or.inl rfl)⟩

/-- C2 fails on the code: for the unary node `-e` with `e` of type `error`,
`exitArithmetic` emits no diagnostic but writes type `float`, not `error`. -/
theorem exitArithmetic_unary_error_operand_writes_float :
    (sampleListener .void).getTypeDecor ((ArithmeticContext.mk 20 [1] ⟨21, "-"⟩ 0).expr 0)
      = TypeId.error ∧
    (ArithmeticContext.mk 20 [1] ⟨21, "-"⟩ 0).expr 1 = nullptr ∧
    (exitArithmetic (ArithmeticContext.mk 20 [1] ⟨21, "-"⟩ 0)
        (sampleListener .void)).getTypeDecor 20 = TypeId.float ∧
    (exitArithmetic (ArithmeticContext.mk 20 [1] ⟨21, "-"⟩ 0)
        (sampleListener .void)).diagnostics = (sampleListener .void).diagnostics :=
  ⟨rfl, rfl, rfl, rfl⟩

/-- C3: for every arithmetic node (binary or unary) all of whose operand types are
non-error, `exitArithmetic` emits exactly one `incompatibleOperator` if some operand is
not numeric or the node is a binary `%` and some operand is not integer, and emits no
diagnostic otherwise; when it emits none, the type written is integer if all operands
are integer and float otherwise; the node is always marked not-lvalue. -/
theorem exitArithmetic_non_error_operands (ctx : ArithmeticContext) (L : TypeCheckListener)
    (hne : ∀ t ∈ operandTypes ctx L, isErrorTy t = false) :
    (((∃ t ∈ operandTypes ctx L, isNumericTy t = false) ∨
        (isBinaryMod ctx = true ∧ ∃ t ∈ operandTypes ctx L, isIntegerTy t = false)) →
      (exitArithmetic ctx L).diagnostics =
        L.diagnostics ++ [SemError.incompatibleOperator ctx.op.node]) ∧
    (¬ ((∃ t ∈ operandTypes ctx L, isNumericTy t = false) ∨
        (isBinaryMod ctx = true ∧ ∃ t ∈ operandTypes ctx L, isIntegerTy t = false)) →
      (exitArithmetic ctx L).diagnostics = L.diagnostics ∧
      (exitArithmetic ctx L).getTypeDecor ctx.node =
        if (operandTypes ctx L).all isIntegerTy then createIntegerTy else createFloatTy) ∧
    (exitArithmetic ctx L).getIsLValueDecor ctx.node = false := by
  unfold exitArithmetic operandTypes isBinaryMod at *
  simp only [getTypeDecor, TreeDecoration.getType] at hne ⊢
  by_cases hbin : ctx.expr 1 = nullptr
  · simp only [hbin, ne_eq, not_true_eq_false, ↓reduceIte, List.mem_singleton,
      forall_eq] at hne
    cases hi : isIntegerTy (L.Decorations.type (ctx.expr 0)) <;>
    cases hf : isFloatTy (L.Decorations.type (ctx.expr 0)) <;>
    simp [Id.run, hbin, hne, hi, hf, isNumericTy, getTypeDecor, putTypeDecor,
      putIsLValueDecor, report, diagnostics, getIsLValueDecor,
      TreeDecoration.getType, TreeDecoration.putType, TreeDecoration.putIsLValue,
      TreeDecoration.getIsLValue, SemErrors.add]
  · simp only [hbin, ne_eq, not_false_eq_true, ↓reduceIte, List.mem_cons,
      List.mem_singleton, forall_eq_or_imp, forall_eq, List.not_mem_nil, or_false] at hne
    obtain ⟨h0, h1⟩ := hne
    cases hi0 : isIntegerTy (L.Decorations.type (ctx.expr 0)) <;>
    cases hf0 : isFloatTy (L.Decorations.type (ctx.expr 0)) <;>
    cases hi1 : isIntegerTy (L.Decorations.type (ctx.expr 1)) <;>
    cases hf1 : isFloatTy (L.Decorations.type (ctx.expr 1)) <;>
    by_cases hm : ctx.MOD = nullptr <;>
    simp [Id.run, hbin, h0, h1, hi0, hf0, hi1, hf1, hm, isNumericTy, getTypeDecor,
      putTypeDecor, putIsLValueDecor, report, diagnostics, getIsLValueDecor,
      TreeDecoration.getType, TreeDecoration.putType, TreeDecoration.putIsLValue,
      TreeDecoration.getIsLValue, SemErrors.add]

/-- Witness of C3: `3.5 + 2` has two non-error operands, no fault, and is typed `float`
with no diagnostic. -/
theorem exitArithmetic_non_error_operands_witness :
    (∀ t ∈ operandTypes (ArithmeticContext.mk 20 [4, 3] ⟨21, "+"⟩ 0) (sampleListener .void),
      isErrorTy t = false) ∧
    (exitArithmetic (ArithmeticContext.mk 20 [4, 3] ⟨21, "+"⟩ 0)
        (sampleListener .void)).diagnostics = (sampleListener .void).diagnostics ∧
    (exitArithmetic (ArithmeticContext.mk 20 [4, 3] ⟨21, "+"⟩ 0)
        (sampleListener .void)).getTypeDecor 20 = TypeId.float ∧
    (exitArithmetic (ArithmeticContext.mk 20 [4, 3] ⟨21, "+"⟩ 0)
        (sampleListener .void)).getIsLValueDecor 20 = false :=
  have h := exitArithmetic_non_error_operands (ArithmeticContext.mk 20 [4, 3] ⟨21, "+"⟩ 0)
    (sampleListener .void) (by decide)
  ⟨by decide, (h.2.1 (by decide)).1, (h.2.1 (by decide)).2, h.2.2⟩

/-- C4 as stated fails on the code: `b + 2` with `b` boolean is reported and typed
`integer`, although one operand is not integer. -/
theorem exitArithmetic_integer_with_non_integer_operand :
    ¬ (isIntegerTy ((exitArithmetic (ArithmeticContext.mk 20 [2, 3] ⟨21, "+"⟩ 0)
          (sampleListener .void)).getTypeDecor 20) = true →
        ∀ t ∈ operandTypes (ArithmeticContext.mk 20 [2, 3] ⟨21, "+"⟩ 0) (sampleListener .void),
          isIntegerTy t = true) := by
  decide

/-- C4, amended: for every arithmetic node, if `exitArithmetic` emits no diagnostic and
the type it writes is integer then every operand has type integer; if it emits a
diagnostic the type written is integer; and in every case where no operand is `error`
and the type written is not integer, the type written is float. -/
theorem exitArithmetic_integer_result (ctx : ArithmeticContext) (L : TypeCheckListener) :
    ((exitArithmetic ctx L).diagnostics = L.diagnostics →
      isIntegerTy ((exitArithmetic ctx L).getTypeDecor ctx.node) = true →
      ∀ t ∈ operandTypes ctx L, isIntegerTy t = true) ∧
    ((exitArithmetic ctx L).diagnostics ≠ L.diagnostics →
      (exitArithmetic ctx L).getTypeDecor ctx.node = createIntegerTy) ∧
    ((∀ t ∈ operandTypes ctx L, isErrorTy t = false) →
      isIntegerTy ((exitArithmetic ctx L).getTypeDecor ctx.node) = false →
      (exitArithmetic ctx L).getTypeDecor ctx.node = createFloatTy) := by
  unfold exitArithmetic operandTypes
  simp only [getTypeDecor, TreeDecoration.getType]
  by_cases hbin : ctx.expr 1 = nullptr
  · cases he : isErrorTy (L.Decorations.type (ctx.expr 0)) <;>
    cases hi : isIntegerTy (L.Decorations.type (ctx.expr 0)) <;>
    cases hf : isFloatTy (L.Decorations.type (ctx.expr 0)) <;>
    simp [Id.run, hbin, he, hi, hf, isNumericTy, getTypeDecor, putTypeDecor,
      putIsLValueDecor, report, diagnostics, getIsLValueDecor,
      TreeDecoration.getType, TreeDecoration.putType, TreeDecoration.putIsLValue,
      TreeDecoration.getIsLValue, SemErrors.add, createIntegerTy, createFloatTy,
      createErrorTy, isIntegerTy_integer, isIntegerTy_float, isIntegerTy_error]
  · cases he0 : isErrorTy (L.Decorations.type (ctx.expr 0)) <;>
    cases he1 : isErrorTy (L.Decorations.type (ctx.expr 1)) <;>
    cases hi0 : isIntegerTy (L.Decorations.type (ctx.expr 0)) <;>
    cases hf0 : isFloatTy (L.Decorations.type (ctx.expr 0)) <;>
    cases hi1 : isIntegerTy (L.Decorations.type (ctx.expr 1)) <;>
    cases hf1 : isFloatTy (L.Decorations.type (ctx.expr 1)) <;>
    by_cases hm : ctx.MOD = nullptr <;>
    simp [Id.run, hbin, he0, he1, hi0, hf0, hi1, hf1, hm, isNumericTy, getTypeDecor,
      putTypeDecor, putIsLValueDecor, report, diagnostics, getIsLValueDecor,
      TreeDecoration.getType, TreeDecoration.putType, TreeDecoration.putIsLValue,
      TreeDecoration.getIsLValue, SemErrors.add, createIntegerTy, createFloatTy,
      createErrorTy, isIntegerTy_integer, isIntegerTy_float, isIntegerTy_error]

/-- Witness of C4 (amended): `2 + 3` is typed `integer` without a diagnostic and both
operands are integer; `b + 2` with `b` boolean is reported and typed `integer`; `3.5 + 2`
has no `error` operand, is not typed `integer`, and is typed `float`. -/
theorem exitArithmetic_integer_result_witness :
    ((exitArithmetic (ArithmeticContext.mk 20 [3, 3] ⟨21, "+"⟩ 0)
        (sampleListener .void)).diagnostics = (sampleListener .void).diagnostics ∧
      isIntegerTy ((exitArithmetic (ArithmeticContext.mk 20 [3, 3] ⟨21, "+"⟩ 0)
        (sampleListener .void)).getTypeDecor 20) = true ∧
      ∀ t ∈ operandTypes (ArithmeticContext.mk 20 [3, 3] ⟨21, "+"⟩ 0) (sampleListener .void),
        isIntegerTy t = true) ∧
    ((exitArithmetic (ArithmeticContext.mk 20 [2, 3] ⟨21, "+"⟩ 0)
        (sampleListener .void)).diagnostics ≠ (sampleListener .void).diagnostics ∧
      (exitArithmetic (ArithmeticContext.mk 20 [2, 3] ⟨21, "+"⟩ 0)
        (sampleListener .void)).getTypeDecor 20 = createIntegerTy) ∧
    ((∀ t ∈ operandTypes (ArithmeticContext.mk 20 [4, 3] ⟨21, "+"⟩ 0) (sampleListener .void),
        isErrorTy t = false) ∧
      isIntegerTy ((exitArithmetic (ArithmeticContext.mk 20 [4, 3] ⟨21, "+"⟩ 0)
        (sampleListener .void)).getTypeDecor 20) = false ∧
      (exitArithmetic (ArithmeticContext.mk 20 [4, 3] ⟨21, "+"⟩ 0)
        (sampleListener .void)).getTypeDecor 20 = createFloatTy) :=
  ⟨⟨by decide, by decide,
      (exitArithmetic_integer_result (ArithmeticContext.mk 20 [3, 3] ⟨21, "+"⟩ 0)
        (sampleListener .void)).1 (by decide) (by decide)⟩,
    ⟨by decide,
      (exitArithmetic_integer_result (ArithmeticContext.mk 20 [2, 3] ⟨21, "+"⟩ 0)
        (sampleListener .void)).2.1 (by decide)⟩,
    ⟨by decide, by decide,
      (exitArithmetic_integer_result (ArithmeticContext.mk 20 [4, 3] ⟨21, "+"⟩ 0)
        (sampleListener .void)).2.2 (by decide) (by decide)⟩⟩

/-! ## Properties of `exitProcedure` -/

/-- Reporting an error does not change which arguments are rejected. -/
theorem argumentRejected_report (ctx : ProcedureContext) (L : TypeCheckListener)
    (ps : List TypeId) (e : SemError) :
    argumentRejected ctx (L.report e) ps = argumentRejected ctx L ps := rfl

/-- One turn of the parameter loop reports the position iff it is rejected. -/
theorem exitProcedureArg_eq (ctx : ProcedureContext) (ps : List TypeId) (R : TypeId)
    (L : TypeCheckListener) (i : Nat) :
    exitProcedureArg ctx (TypeId.function ps R) L i =
      if argumentRejected ctx L ps i = true then
        L.report (SemError.incompatibleParameter (ctx.expr i) (i + 1) ctx.node)
      else L := by
  simp only [exitProcedureArg, argumentRejected, getParameterType, Bool.not_and]

/-- The parameter loop only appends diagnostics: run over the positions `l`, it leaves
the symbol table and the decorations alone and appends one `incompatibleParameter` per
rejected position, in the order of `l`. -/
theorem foldl_exitProcedureArg (ctx : ProcedureContext) (ps : List TypeId) (R : TypeId)
    (l : List Nat) (L : TypeCheckListener) :
    l.foldl (exitProcedureArg ctx (TypeId.function ps R)) L =
      ⟨L.Symbols, L.Decorations, ⟨L.Errors.errors ++
          (l.filter (argumentRejected ctx L ps)).map
            (fun i => SemError.incompatibleParameter (ctx.expr i) (i + 1) ctx.node),
        L.Errors.printed⟩⟩ := by
  induction l generalizing L with
  | nil => simp
  | cons a l ih =>
    rw [List.foldl_cons, ih, exitProcedureArg_eq]
    by_cases h : argumentRejected ctx L ps a = true
    · simp only [h, if_true, argumentRejected_report]
      simp [h, List.filter_cons, report, SemErrors.add]
    · simp [h, List.filter_cons]

/-- C5: for every call node whose callee identifier has a function type with parameter
types `ps` and return type `R`, `exitProcedure` writes `R` as the node's type in all
cases; if the number of arguments differs from the number of parameters it emits exactly
one `numberOfParameters` and nothing else; if the numbers agree it emits no
`numberOfParameters` and emits `incompatibleParameter` exactly for the rejected argument
positions, reported 1-based and in increasing order. -/
theorem exitProcedure_function_callee (ctx : ProcedureContext) (L : TypeCheckListener)
    (ps : List TypeId) (R : TypeId)
    (hfun : L.getTypeDecor ctx.ident = TypeId.function ps R) :
    (exitProcedure ctx L).getTypeDecor ctx.node = R ∧
    (ctx.exprs.length ≠ ps.length →
      (exitProcedure ctx L).diagnostics =
        L.diagnostics ++ [SemError.numberOfParameters ctx.ident]) ∧
    (ctx.exprs.length = ps.length →
      (exitProcedure ctx L).diagnostics =
        L.diagnostics ++
          ((List.range ps.length).filter (argumentRejected ctx L ps)).map
            (fun i => SemError.incompatibleParameter (ctx.expr i) (i + 1) ctx.node)) := by
  unfold exitProcedure
  simp only [Id.run, hfun, isFunctionTy, isErrorTy, getFuncReturnType, getNumOfParameters]
  by_cases hlen : ctx.exprs.length = ps.length
  · simp [hlen, foldl_exitProcedureArg, getTypeDecor, putTypeDecor, diagnostics,
      TreeDecoration.getType, TreeDecoration.putType]
  · simp [hlen, getTypeDecor, putTypeDecor, diagnostics, report, SemErrors.add,
      TreeDecoration.getType, TreeDecoration.putType]

/-- Witness of C5: with `f : (float, integer) -> integer`, the call `f(2, 3.5)` is typed
`integer` and only its second argument is reported (the first is widened); the call
`f(2)` is typed `integer` and reported once for its number of arguments. -/
theorem exitProcedure_function_callee_witness :
    (sampleListener .void).getTypeDecor (ProcedureContext.mk 30 6 [3, 4]).ident =
      TypeId.function [.float, .integer] .integer ∧
    (exitProcedure (ProcedureContext.mk 30 6 [3, 4]) (sampleListener .void)).getTypeDecor 30 =
      TypeId.integer ∧
    (exitProcedure (ProcedureContext.mk 30 6 [3, 4]) (sampleListener .void)).diagnostics =
      (sampleListener .void).diagnostics ++ [SemError.incompatibleParameter 4 2 30] ∧
    (exitProcedure (ProcedureContext.mk 30 6 [3]) (sampleListener .void)).getTypeDecor 30 =
      TypeId.integer ∧
    (exitProcedure (ProcedureContext.mk 30 6 [3]) (sampleListener .void)).diagnostics =
      (sampleListener .void).diagnostics ++ [SemError.numberOfParameters 6] :=
  ⟨rfl,
    (exitProcedure_function_callee (ProcedureContext.mk 30 6 [3, 4]) (sampleListener .void)
      [.float, .integer] .integer rfl).1,
    (exitProcedure_function_callee (ProcedureContext.mk 30 6 [3, 4]) (sampleListener .void)
      [.float, .integer] .integer rfl).2.2 rfl,
    (exitProcedure_function_callee (ProcedureContext.mk 30 6 [3]) (sampleListener .void)
      [.float, .integer] .integer rfl).1,
    (exitProcedure_function_callee (ProcedureContext.mk 30 6 [3]) (sampleListener .void)
      [.float, .integer] .integer rfl).2.1 (by decide)⟩

/-! ## Properties of `exitReturnExpr_` -/

/-- C6: for every return statement: when the current function type is a void function,
`exitReturnExpr_` emits exactly one `incompatibleReturn` if the statement carries a value
expression and nothing if it does not; when the current function returns a non-void type
`R` and the statement carries an expression of type `T`, it emits exactly one
`incompatibleReturn` iff neither `equalTypes(T, R)` holds nor (`T` is integer and `R` is
float).  In particular returning integer from a float function is accepted and
returning float from an integer function is rejected. -/
theorem exitReturnExpr_checks (ctx : ReturnExpr_Context) (L : TypeCheckListener) :
    (isVoidFunction L.Symbols.getCurrentFunctionTy = true →
      (ctx.expr ≠ nullptr →
        (exitReturnExpr_ ctx L).diagnostics =
          L.diagnostics ++ [SemError.incompatibleReturn ctx.RETURN]) ∧
      (ctx.expr = nullptr → (exitReturnExpr_ ctx L).diagnostics = L.diagnostics)) ∧
    (∀ ps R, L.Symbols.getCurrentFunctionTy = TypeId.function ps R → R ≠ TypeId.void →
      ctx.expr ≠ nullptr →
      (exitReturnExpr_ ctx L).diagnostics =
        L.diagnostics ++
          (if equalTypes (L.getTypeDecor ctx.expr) R = false ∧
              ¬ (isIntegerTy (L.getTypeDecor ctx.expr) = true ∧ isFloatTy R = true)
            then [SemError.incompatibleReturn ctx.RETURN] else [])) ∧
    (∀ ps, L.Symbols.getCurrentFunctionTy = TypeId.function ps TypeId.float →
      ctx.expr ≠ nullptr → L.getTypeDecor ctx.expr = TypeId.integer →
      (exitReturnExpr_ ctx L).diagnostics = L.diagnostics) ∧
    (∀ ps, L.Symbols.getCurrentFunctionTy = TypeId.function ps TypeId.integer →
      ctx.expr ≠ nullptr → L.getTypeDecor ctx.expr = TypeId.float →
      (exitReturnExpr_ ctx L).diagnostics =
        L.diagnostics ++ [SemError.incompatibleReturn ctx.RETURN]) := by
  unfold exitReturnExpr_
  refine ⟨?_, ?_, ?_, ?_⟩
  · intro hv
    constructor
    · intro he
      simp [Id.run, hv, he, report, diagnostics, SemErrors.add]
    · intro he
      simp [Id.run, hv, he, diagnostics]
  · intro ps R htf hR _
    have hv : isVoidFunction (TypeId.function ps R) = false := by
      cases R <;> simp [isVoidFunction] at hR ⊢
    cases h1 : equalTypes (L.getTypeDecor ctx.expr) R <;>
    cases h2 : isIntegerTy (L.getTypeDecor ctx.expr) <;>
    cases h3 : isFloatTy R <;>
    simp [Id.run, htf, hv, h1, h2, h3, getFuncReturnType, report, diagnostics, SemErrors.add]
  · intro ps htf _ hT
    simp [Id.run, htf, hT, isVoidFunction, getFuncReturnType, isIntegerTy, isFloatTy,
      diagnostics]
  · intro ps htf _ hT
    simp [Id.run, htf, hT, isVoidFunction, getFuncReturnType, isIntegerTy, isFloatTy,
      equalTypes, report, diagnostics, SemErrors.add]

/-- Witness of C6: `return 5` inside a void function is reported once, a bare `return`
is not; inside a function returning `float`, `return 2` is accepted; inside a function
returning `integer`, `return 3.5` is reported once. -/
theorem exitReturnExpr_checks_witness :
    (exitReturnExpr_ (ReturnExpr_Context.mk 40 3 41)
        (sampleListener (.function [] .void))).diagnostics =
      (sampleListener (.function [] .void)).diagnostics ++ [SemError.incompatibleReturn 41] ∧
    (exitReturnExpr_ (ReturnExpr_Context.mk 40 nullptr 41)
        (sampleListener (.function [] .void))).diagnostics =
      (sampleListener (.function [] .void)).diagnostics ∧
    (exitReturnExpr_ (ReturnExpr_Context.mk 40 8 41)
        (sampleListener (.function [] .boolean))).diagnostics =
      (sampleListener (.function [] .boolean)).diagnostics ++
        [SemError.incompatibleReturn 41] ∧
    (exitReturnExpr_ (ReturnExpr_Context.mk 40 3 41)
        (sampleListener (.function [] .float))).diagnostics =
      (sampleListener (.function [] .float)).diagnostics ∧
    (exitReturnExpr_ (ReturnExpr_Context.mk 40 4 41)
        (sampleListener (.function [] .integer))).diagnostics =
      (sampleListener (.function [] .integer)).diagnostics ++
        [SemError.incompatibleReturn 41] :=
  ⟨((exitReturnExpr_checks (ReturnExpr_Context.mk 40 3 41)
      (sampleListener (.function [] .void))).1 rfl).1 (by decide),
    ((exitReturnExpr_checks (ReturnExpr_Context.mk 40 nullptr 41)
      (sampleListener (.function [] .void))).1 rfl).2 rfl,
    (exitReturnExpr_checks (ReturnExpr_Context.mk 40 8 41)
      (sampleListener (.function [] .boolean))).2.1 [] .boolean rfl (by simp) (by decide),
    (exitReturnExpr_checks (ReturnExpr_Context.mk 40 3 41)
      (sampleListener (.function [] .float))).2.2.1 [] rfl (by decide) rfl,
    (exitReturnExpr_checks (ReturnExpr_Context.mk 40 4 41)
      (sampleListener (.function [] .integer))).2.2.2 [] rfl (by decide) rfl⟩

/-- C7 fails on the code: inside a function returning `integer`, `return e` with `e`
already typed `error` is reported again by `exitReturnExpr_`; and in the call `f(e, 2)`
with `f : (float, integer) -> integer`, whose number of arguments matches,
`exitProcedure` reports the argument `e` already typed `error`. -/
theorem error_operand_reported_again :
    (sampleListener (.function [] .integer)).getTypeDecor (ReturnExpr_Context.mk 40 1 41).expr
      = TypeId.error ∧
    (exitReturnExpr_ (ReturnExpr_Context.mk 40 1 41)
        (sampleListener (.function [] .integer))).diagnostics =
      (sampleListener (.function [] .integer)).diagnostics ++
        [SemError.incompatibleReturn 41] ∧
    (sampleListener .void).getTypeDecor ((ProcedureContext.mk 30 6 [1, 3]).expr 0)
      = TypeId.error ∧
    (exitProcedure (ProcedureContext.mk 30 6 [1, 3]) (sampleListener .void)).diagnostics =
      (sampleListener .void).diagnostics ++ [SemError.incompatibleParameter 1 1 30] :=
  ⟨rfl, rfl, rfl, rfl⟩

/-! ## Properties of `exitAssignStmt` -/

/-- C8: for every assignment in its plain form (no array-identifier child), with `t1` the
type of the left side and `t2` the type of the right side, `exitAssignStmt` emits
`nonReferenceableLeftExpr` iff `t1` is not `error` and the left side is not an lvalue,
and `incompatibleAssignment` iff `t1` and `t2` are both not `error` and
`copyableTypes(t1, t2)` is false; the two are independent, `nonReferenceableLeftExpr`
comes first, and nothing else is emitted. -/
theorem exitAssignStmt_plain (ctx : AssignStmtContext) (L : TypeCheckListener)
    (hplain : ctx.ident = nullptr) :
    (exitAssignStmt ctx L).diagnostics =
      L.diagnostics ++
        (if isErrorTy (L.getTypeDecor ctx.left_expr) = false ∧
            L.getIsLValueDecor ctx.left_expr = false
          then [SemError.nonReferenceableLeftExpr ctx.left_expr] else []) ++
        (if isErrorTy (L.getTypeDecor ctx.left_expr) = false ∧
            isErrorTy (L.getTypeDecor ctx.expr) = false ∧
            copyableTypes (L.getTypeDecor ctx.left_expr) (L.getTypeDecor ctx.expr) = false
          then [SemError.incompatibleAssignment ctx.ASSIGN] else []) := by
  unfold exitAssignStmt
  simp only [getTypeDecor, getIsLValueDecor, TreeDecoration.getType,
    TreeDecoration.getIsLValue]
  by_cases h1 : isErrorTy (L.Decorations.type ctx.left_expr) = true <;>
  by_cases h2 : isErrorTy (L.Decorations.type ctx.expr) = true <;>
  by_cases h3 : L.Decorations.isLValue ctx.left_expr = true <;>
  by_cases h4 : copyableTypes (L.Decorations.type ctx.left_expr)
    (L.Decorations.type ctx.expr) = true <;>
  simp [Id.run, hplain, h1, h2, h3, h4, report, diagnostics, SemErrors.add, getTypeDecor,
    getIsLValueDecor, TreeDecoration.getType, TreeDecoration.getIsLValue]

/-- Witness of C8: `f := 'c'` with `f` a function symbol of function type (not an
lvalue) and a character on the right emits both diagnostics,
`nonReferenceableLeftExpr` first. -/
theorem exitAssignStmt_plain_witness :
    (AssignStmtContext.mk 50 6 8 nullptr 51).ident = nullptr ∧
    (exitAssignStmt (AssignStmtContext.mk 50 6 8 nullptr 51) (sampleListener .void)).diagnostics =
      (sampleListener .void).diagnostics ++
        [SemError.nonReferenceableLeftExpr 6, SemError.incompatibleAssignment 51] :=
  ⟨rfl, exitAssignStmt_plain (AssignStmtContext.mk 50 6 8 nullptr 51) (sampleListener .void) rfl⟩

/-! ## Properties of `exitIdent` -/

/-- C9: for every identifier node: if `findInStack` does not find the name, `exitIdent`
emits exactly one `undeclaredIdent`, writes type `error` and marks the node as an
lvalue; if the name is found, it emits no diagnostic, writes the type the symbol table
returns for the name, and marks the node as an lvalue iff the symbol is not of function
class. -/
theorem exitIdent_checks (ctx : IdentContext) (L : TypeCheckListener) :
    (L.Symbols.findInStack ctx.getText = -1 →
      (exitIdent ctx L).diagnostics = L.diagnostics ++ [SemError.undeclaredIdent ctx.ID] ∧
      (exitIdent ctx L).getTypeDecor ctx.node = createErrorTy ∧
      (exitIdent ctx L).getIsLValueDecor ctx.node = true) ∧
    (L.Symbols.findInStack ctx.getText ≠ -1 →
      (exitIdent ctx L).diagnostics = L.diagnostics ∧
      (exitIdent ctx L).getTypeDecor ctx.node = L.Symbols.getType ctx.getText ∧
      ((exitIdent ctx L).getIsLValueDecor ctx.node = true ↔
        L.Symbols.isFunctionClass ctx.getText = false)) := by
  unfold exitIdent
  constructor
  · intro h
    simp [Id.run, h, report, diagnostics, SemErrors.add, getTypeDecor, getIsLValueDecor,
      putTypeDecor, putIsLValueDecor, TreeDecoration.getType, TreeDecoration.getIsLValue,
      TreeDecoration.putType, TreeDecoration.putIsLValue]
  · intro h
    cases hf : L.Symbols.isFunctionClass ctx.getText <;>
    simp [Id.run, h, hf, report, diagnostics, SemErrors.add, getTypeDecor, getIsLValueDecor,
      putTypeDecor, putIsLValueDecor, TreeDecoration.getType, TreeDecoration.getIsLValue,
      TreeDecoration.putType, TreeDecoration.putIsLValue]

/-- Witness of C9: in the sample symbol table `y` is undeclared, so it is reported,
typed `error` and made an lvalue; `f` is a function symbol, so it gets its function type
and is not an lvalue; `x` is a variable, so it gets type `integer` and is an lvalue. -/
theorem exitIdent_checks_witness :
    ((sampleListener .void).Symbols.findInStack (IdentContext.mk 60 "y" 61).getText = -1 ∧
      (exitIdent (IdentContext.mk 60 "y" 61) (sampleListener .void)).diagnostics =
        (sampleListener .void).diagnostics ++ [SemError.undeclaredIdent 61] ∧
      (exitIdent (IdentContext.mk 60 "y" 61) (sampleListener .void)).getTypeDecor 60 =
        TypeId.error ∧
      (exitIdent (IdentContext.mk 60 "y" 61) (sampleListener .void)).getIsLValueDecor 60 =
        true) ∧
    ((sampleListener .void).Symbols.findInStack (IdentContext.mk 60 "f" 61).getText ≠ -1 ∧
      (exitIdent (IdentContext.mk 60 "f" 61) (sampleListener .void)).diagnostics =
        (sampleListener .void).diagnostics ∧
      (exitIdent (IdentContext.mk 60 "f" 61) (sampleListener .void)).getTypeDecor 60 =
        TypeId.function [.float, .integer] .integer ∧
      ¬ (exitIdent (IdentContext.mk 60 "f" 61) (sampleListener .void)).getIsLValueDecor 60 =
        true) ∧
    ((sampleListener .void).Symbols.findInStack (IdentContext.mk 60 "x" 61).getText ≠ -1 ∧
      (exitIdent (IdentContext.mk 60 "x" 61) (sampleListener .void)).getTypeDecor 60 =
        TypeId.integer ∧
      (exitIdent (IdentContext.mk 60 "x" 61) (sampleListener .void)).getIsLValueDecor 60 =
        true) :=
  have hy := (exitIdent_checks (IdentContext.mk 60 "y" 61) (sampleListener .void)).1
    (by decide)
  have hf := (exitIdent_checks (IdentContext.mk 60 "f" 61) (sampleListener .void)).2
    (by decide)
  have hx := (exitIdent_checks (IdentContext.mk 60 "x" 61) (sampleListener .void)).2
    (by decide)
  ⟨⟨by decide, hy.1, hy.2.1, hy.2.2⟩,
    ⟨by decide, hf.1, hf.2.1.trans rfl, fun h => absurd (hf.2.2.1 h) (by decide)⟩,
    ⟨by decide, hx.2.1.trans rfl, hx.2.2.2 (by decide)⟩⟩

/-! ## Properties of `exitLeft_expr` and `exitExprIdent` -/

/-- The left-expression form of an indexed access (index expression or integer literal)
whose base is not typed `error`. -/
theorem exitLeft_expr_indexed (ctx : Left_exprContext) (L : TypeCheckListener)
    (hidx : ctx.INTVAL ≠ nullptr ∨ ctx.expr ≠ nullptr)
    (hbase : isErrorTy (L.getTypeDecor ctx.ident) = false) :
    (exitLeft_expr ctx L).diagnostics =
      L.diagnostics ++
        accessFaults ctx.ident ctx.expr (L.getTypeDecor ctx.ident) (L.getTypeDecor ctx.expr) ∧
    (exitLeft_expr ctx L).getTypeDecor ctx.node =
      if accessFaults ctx.ident ctx.expr (L.getTypeDecor ctx.ident)
          (L.getTypeDecor ctx.expr) = []
      then getArrayElemType (L.getTypeDecor ctx.ident) else createErrorTy := by
  unfold exitLeft_expr accessFaults
  simp only [getTypeDecor, TreeDecoration.getType] at hbase ⊢
  by_cases hi : ctx.INTVAL = nullptr <;>
  by_cases hx : ctx.expr = nullptr <;>
  by_cases h1 : isArrayTy (L.Decorations.type ctx.ident) = true <;>
  by_cases h2 : isNumericTy (L.Decorations.type ctx.expr) = true <;>
  simp [Id.run, hi, hx, hbase, h1, h2, report, diagnostics, SemErrors.add, getTypeDecor,
    putTypeDecor, putIsLValueDecor, getIsLValueDecor, TreeDecoration.getType,
    TreeDecoration.putType, TreeDecoration.putIsLValue, TreeDecoration.getIsLValue]
    at hidx ⊢

/-- The expression form of an indexed access (index expression or integer literal),
whatever the type of its base. -/
theorem exitExprIdent_indexed (ctx : ExprIdentContext) (L : TypeCheckListener)
    (hidx : ctx.INTVAL ≠ nullptr ∨ ctx.expr ≠ nullptr) :
    (exitExprIdent ctx L).diagnostics =
      L.diagnostics ++
        accessFaults ctx.ident ctx.expr (L.getTypeDecor ctx.ident) (L.getTypeDecor ctx.expr) ∧
    (exitExprIdent ctx L).getTypeDecor ctx.node =
      if accessFaults ctx.ident ctx.expr (L.getTypeDecor ctx.ident)
          (L.getTypeDecor ctx.expr) = []
      then getArrayElemType (L.getTypeDecor ctx.ident) else createErrorTy := by
  unfold exitExprIdent accessFaults
  simp only [getTypeDecor, TreeDecoration.getType]
  by_cases hi : ctx.INTVAL = nullptr <;>
  by_cases hx : ctx.expr = nullptr <;>
  by_cases h1 : isArrayTy (L.Decorations.type ctx.ident) = true <;>
  by_cases h2 : isNumericTy (L.Decorations.type ctx.expr) = true <;>
  simp [Id.run, hi, hx, h1, h2, report, diagnostics, SemErrors.add, getTypeDecor,
    putTypeDecor, putIsLValueDecor, getIsLValueDecor, TreeDecoration.getType,
    TreeDecoration.putType, TreeDecoration.putIsLValue, TreeDecoration.getIsLValue]
    at hidx ⊢

/-- An un-indexed left expression passes the type of its identifier through. -/
theorem exitLeft_expr_plain (ctx : Left_exprContext) (L : TypeCheckListener)
    (hint : ctx.INTVAL = nullptr) (hexpr : ctx.expr = nullptr) :
    (exitLeft_expr ctx L).diagnostics = L.diagnostics ∧
    (exitLeft_expr ctx L).getTypeDecor ctx.node = L.getTypeDecor ctx.ident := by
  unfold exitLeft_expr
  simp [Id.run, hint, hexpr, diagnostics, getTypeDecor, putTypeDecor, putIsLValueDecor,
    getIsLValueDecor, TreeDecoration.getType, TreeDecoration.putType,
    TreeDecoration.putIsLValue, TreeDecoration.getIsLValue]

/-- An un-indexed identifier expression passes the type of its identifier through. -/
theorem exitExprIdent_plain (ctx : ExprIdentContext) (L : TypeCheckListener)
    (hint : ctx.INTVAL = nullptr) (hexpr : ctx.expr = nullptr) :
    (exitExprIdent ctx L).diagnostics = L.diagnostics ∧
    (exitExprIdent ctx L).getTypeDecor ctx.node = L.getTypeDecor ctx.ident := by
  unfold exitExprIdent
  simp [Id.run, hint, hexpr, diagnostics, getTypeDecor, putTypeDecor, putIsLValueDecor,
    getIsLValueDecor, TreeDecoration.getType, TreeDecoration.putType,
    TreeDecoration.putIsLValue, TreeDecoration.getIsLValue]

/-- C10: for every indexed access handled by `exitLeft_expr` or `exitExprIdent` — the
index being an expression (`expr` present) or an integer literal (`INTVAL` present,
which has no index type to check) — whose base identifier has a non-error type: if the
base type is an array of `E` and the type of the index expression, if there is one, is
numeric, the type written is `E` and no diagnostic is emitted; the diagnostics emitted
are `nonArrayInArrayAccess` if the base type is not an array followed by
`nonIntegerIndexInArrayAccess` if there is an index expression whose type is not numeric
(both when both faults are present); whenever at least one fault is present the type
written is `error`.  An un-indexed identifier passes its type through with no
diagnostic. -/
theorem indexed_access_checks (cl : Left_exprContext) (ce : ExprIdentContext)
    (L : TypeCheckListener) :
    ((cl.INTVAL ≠ nullptr ∨ cl.expr ≠ nullptr) →
      isErrorTy (L.getTypeDecor cl.ident) = false →
      (∀ E n d, L.getTypeDecor cl.ident = TypeId.array E n d →
        (cl.expr ≠ nullptr → isNumericTy (L.getTypeDecor cl.expr) = true) →
        (exitLeft_expr cl L).getTypeDecor cl.node = E ∧
        (exitLeft_expr cl L).diagnostics = L.diagnostics) ∧
      (exitLeft_expr cl L).diagnostics =
        L.diagnostics ++
          (if isArrayTy (L.getTypeDecor cl.ident) then []
            else [SemError.nonArrayInArrayAccess cl.ident]) ++
          (if cl.expr ≠ nullptr ∧ isNumericTy (L.getTypeDecor cl.expr) = false
            then [SemError.nonIntegerIndexInArrayAccess cl.expr] else []) ∧
      (isArrayTy (L.getTypeDecor cl.ident) = false ∨
          (cl.expr ≠ nullptr ∧ isNumericTy (L.getTypeDecor cl.expr) = false) →
        (exitLeft_expr cl L).getTypeDecor cl.node = createErrorTy)) ∧
    ((ce.INTVAL ≠ nullptr ∨ ce.expr ≠ nullptr) →
      isErrorTy (L.getTypeDecor ce.ident) = false →
      (∀ E n d, L.getTypeDecor ce.ident = TypeId.array E n d →
        (ce.expr ≠ nullptr → isNumericTy (L.getTypeDecor ce.expr) = true) →
        (exitExprIdent ce L).getTypeDecor ce.node = E ∧
        (exitExprIdent ce L).diagnostics = L.diagnostics) ∧
      (exitExprIdent ce L).diagnostics =
        L.diagnostics ++
          (if isArrayTy (L.getTypeDecor ce.ident) then []
            else [SemError.nonArrayInArrayAccess ce.ident]) ++
          (if ce.expr ≠ nullptr ∧ isNumericTy (L.getTypeDecor ce.expr) = false
            then [SemError.nonIntegerIndexInArrayAccess ce.expr] else []) ∧
      (isArrayTy (L.getTypeDecor ce.ident) = false ∨
          (ce.expr ≠ nullptr ∧ isNumericTy (L.getTypeDecor ce.expr) = false) →
        (exitExprIdent ce L).getTypeDecor ce.node = createErrorTy)) ∧
    (cl.INTVAL = nullptr → cl.expr = nullptr →
      (exitLeft_expr cl L).diagnostics = L.diagnostics ∧
      (exitLeft_expr cl L).getTypeDecor cl.node = L.getTypeDecor cl.ident) ∧
    (ce.INTVAL = nullptr → ce.expr = nullptr →
      (exitExprIdent ce L).diagnostics = L.diagnostics ∧
      (exitExprIdent ce L).getTypeDecor ce.node = L.getTypeDecor ce.ident) := by
  refine ⟨?_, ?_, exitLeft_expr_plain cl L, exitExprIdent_plain ce L⟩
  · intro hidx hbase
    obtain ⟨hd, ht⟩ := exitLeft_expr_indexed cl L hidx hbase
    refine ⟨?_, ?_, ?_⟩
    · intro E n d harr hnum
      rw [hd, ht]
      by_cases hx : cl.expr = nullptr
      · simp [accessFaults, harr, hx, isArrayTy, getArrayElemType]
      · simp [accessFaults, harr, hnum hx, isArrayTy, getArrayElemType]
    · rw [hd, accessFaults, List.append_assoc]
    · intro hfault
      rw [ht]
      rcases hfault with h | ⟨h1, h2⟩
      · simp [accessFaults, h]
      · simp [accessFaults, h1, h2]
  · intro hidx _
    obtain ⟨hd, ht⟩ := exitExprIdent_indexed ce L hidx
    refine ⟨?_, ?_, ?_⟩
    · intro E n d harr hnum
      rw [hd, ht]
      by_cases hx : ce.expr = nullptr
      · simp [accessFaults, harr, hx, isArrayTy, getArrayElemType]
      · simp [accessFaults, harr, hnum hx, isArrayTy, getArrayElemType]
    · rw [hd, accessFaults, List.append_assoc]
    · intro hfault
      rw [ht]
      rcases hfault with h | ⟨h1, h2⟩
      · simp [accessFaults, h]
      · simp [accessFaults, h1, h2]

/-- Witness of C10: with `a` an array of integers, `a[2]` (index expression) and `a[3]`
(integer literal, token 71) are typed `integer` without a diagnostic; `x[true]` with `x`
an integer gets both diagnostics, `nonArrayInArrayAccess` first, and type `error`;
`x[3]` with a literal index gets `nonArrayInArrayAccess` alone and type `error`, in both
forms; the un-indexed `a` keeps its array type. -/
theorem indexed_access_checks_witness :
    ((exitLeft_expr (Left_exprContext.mk 70 5 nullptr 3) (sampleListener .void)).getTypeDecor 70
        = TypeId.integer ∧
      (exitLeft_expr (Left_exprContext.mk 70 5 nullptr 3) (sampleListener .void)).diagnostics
        = (sampleListener .void).diagnostics) ∧
    ((exitExprIdent (ExprIdentContext.mk 70 3 nullptr 2) (sampleListener .void)).diagnostics
        = (sampleListener .void).diagnostics ++
          [SemError.nonArrayInArrayAccess 3, SemError.nonIntegerIndexInArrayAccess 2] ∧
      (exitExprIdent (ExprIdentContext.mk 70 3 nullptr 2) (sampleListener .void)).getTypeDecor 70
        = TypeId.error) ∧
    ((exitLeft_expr (Left_exprContext.mk 70 5 71 nullptr) (sampleListener .void)).getTypeDecor 70
        = TypeId.integer ∧
      (exitLeft_expr (Left_exprContext.mk 70 5 71 nullptr) (sampleListener .void)).diagnostics
        = (sampleListener .void).diagnostics) ∧
    ((exitExprIdent (ExprIdentContext.mk 70 5 71 nullptr) (sampleListener .void)).getTypeDecor 70
        = TypeId.integer ∧
      (exitExprIdent (ExprIdentContext.mk 70 5 71 nullptr) (sampleListener .void)).diagnostics
        = (sampleListener .void).diagnostics) ∧
    ((exitLeft_expr (Left_exprContext.mk 70 3 71 nullptr) (sampleListener .void)).diagnostics
        = (sampleListener .void).diagnostics ++ [SemError.nonArrayInArrayAccess 3] ∧
      (exitLeft_expr (Left_exprContext.mk 70 3 71 nullptr) (sampleListener .void)).getTypeDecor 70
        = TypeId.error) ∧
    ((exitExprIdent (ExprIdentContext.mk 70 3 71 nullptr) (sampleListener .void)).diagnostics
        = (sampleListener .void).diagnostics ++ [SemError.nonArrayInArrayAccess 3] ∧
      (exitExprIdent (ExprIdentContext.mk 70 3 71 nullptr) (sampleListener .void)).getTypeDecor 70
        = TypeId.error) ∧
    ((exitLeft_expr (Left_exprContext.mk 70 5 nullptr nullptr)
        (sampleListener .void)).diagnostics = (sampleListener .void).diagnostics ∧
      (exitLeft_expr (Left_exprContext.mk 70 5 nullptr nullptr)
        (sampleListener .void)).getTypeDecor 70 = TypeId.array .integer 10 0) ∧
    ((exitExprIdent (ExprIdentContext.mk 70 5 nullptr nullptr)
        (sampleListener .void)).diagnostics = (sampleListener .void).diagnostics ∧
      (exitExprIdent (ExprIdentContext.mk 70 5 nullptr nullptr)
        (sampleListener .void)).getTypeDecor 70 = TypeId.array .integer 10 0) :=
  ⟨((indexed_access_checks (Left_exprContext.mk 70 5 nullptr 3)
        (ExprIdentContext.mk 70 3 nullptr 2) (sampleListener .void)).1
      (Or.inr (by decide)) rfl).1 .integer 10 0 rfl (fun _ => rfl),
    ⟨((indexed_access_checks (Left_exprContext.mk 70 5 nullptr 3)
        (ExprIdentContext.mk 70 3 nullptr 2) (sampleListener .void)).2.1
      (Or.inr (by decide)) rfl).2.1,
     ((indexed_access_checks (Left_exprContext.mk 70 5 nullptr 3)
        (ExprIdentContext.mk 70 3 nullptr 2) (sampleListener .void)).2.1
      (Or.inr (by decide)) rfl).2.2 (Or.inl rfl)⟩,
    ((indexed_access_checks (Left_exprContext.mk 70 5 71 nullptr)
        (ExprIdentContext.mk 70 5 71 nullptr) (sampleListener .void)).1
      (Or.inl (by decide)) rfl).1 .integer 10 0 rfl (fun h => absurd rfl h),
    ((indexed_access_checks (Left_exprContext.mk 70 5 71 nullptr)
        (ExprIdentContext.mk 70 5 71 nullptr) (sampleListener .void)).2.1
      (Or.inl (by decide)) rfl).1 .integer 10 0 rfl (fun h => absurd rfl h),
    ⟨((indexed_access_checks (Left_exprContext.mk 70 3 71 nullptr)
        (ExprIdentContext.mk 70 3 71 nullptr) (sampleListener .void)).1
      (Or.inl (by decide)) rfl).2.1,
     ((indexed_access_checks (Left_exprContext.mk 70 3 71 nullptr)
        (ExprIdentContext.mk 70 3 71 nullptr) (sampleListener .void)).1
      (Or.inl (by decide)) rfl).2.2 (Or.inl rfl)⟩,
    ⟨((indexed_access_checks (Left_exprContext.mk 70 3 71 nullptr)
        (ExprIdentContext.mk 70 3 71 nullptr) (sampleListener .void)).2.1
      (Or.inl (by decide)) rfl).2.1,
     ((indexed_access_checks (Left_exprContext.mk 70 3 71 nullptr)
        (ExprIdentContext.mk 70 3 71 nullptr) (sampleListener .void)).2.1
      (Or.inl (by decide)) rfl).2.2 (Or.inl rfl)⟩,
    (indexed_access_checks (Left_exprContext.mk 70 5 nullptr nullptr)
      (ExprIdentContext.mk 70 5 nullptr nullptr) (sampleListener .void)).2.2.1 rfl rfl,
    (indexed_access_checks (Left_exprContext.mk 70 5 nullptr nullptr)
      (ExprIdentContext.mk 70 5 nullptr nullptr) (sampleListener .void)).2.2.2 rfl rfl⟩

/-! ## Properties of `exitRelational` -/

/-- C11: for every relational/boolean node, `exitRelational` always writes type boolean
and marks the node not-lvalue, and emits at most one diagnostic: for `not`,
`booleanRequired` iff the operand type is neither `error` nor boolean; for `and`/`or`,
`incompatibleOperator` iff some operand's type is neither `error` nor boolean; for a
comparison, `incompatibleOperator` iff both operand types are not `error` and
`comparableTypes(t1, t2, operator)` is false. -/
theorem exitRelational_checks (ctx : RelationalContext) (L : TypeCheckListener) :
    (exitRelational ctx L).getTypeDecor ctx.node = createBooleanTy ∧
    (exitRelational ctx L).getIsLValueDecor ctx.node = false ∧
    (ctx.NOT ≠ nullptr →
      (exitRelational ctx L).diagnostics =
        L.diagnostics ++
          (if isErrorTy (L.getTypeDecor (ctx.expr 0)) = false ∧
              isBooleanTy (L.getTypeDecor (ctx.expr 0)) = false
            then [SemError.booleanRequired ctx.node] else [])) ∧
    (ctx.NOT = nullptr → (ctx.AND ≠ nullptr ∨ ctx.OR ≠ nullptr) →
      (exitRelational ctx L).diagnostics =
        L.diagnostics ++
          (if (isErrorTy (L.getTypeDecor (ctx.expr 0)) = false ∧
                isBooleanTy (L.getTypeDecor (ctx.expr 0)) = false) ∨
              (isErrorTy (L.getTypeDecor (ctx.expr 1)) = false ∧
                isBooleanTy (L.getTypeDecor (ctx.expr 1)) = false)
            then [SemError.incompatibleOperator ctx.op.node] else [])) ∧
    (ctx.NOT = nullptr → ctx.AND = nullptr → ctx.OR = nullptr →
      (exitRelational ctx L).diagnostics =
        L.diagnostics ++
          (if isErrorTy (L.getTypeDecor (ctx.expr 0)) = false ∧
              isErrorTy (L.getTypeDecor (ctx.expr 1)) = false ∧
              comparableTypes (L.getTypeDecor (ctx.expr 0)) (L.getTypeDecor (ctx.expr 1))
                ctx.op.getText = false
            then [SemError.incompatibleOperator ctx.op.node] else [])) := by
  unfold exitRelational
  simp only [getTypeDecor, TreeDecoration.getType]
  by_cases hn : ctx.NOT = nullptr <;>
  by_cases ha : ctx.AND = nullptr <;>
  by_cases ho : ctx.OR = nullptr <;>
  by_cases he0 : isErrorTy (L.Decorations.type (ctx.expr 0)) = true <;>
  by_cases he1 : isErrorTy (L.Decorations.type (ctx.expr 1)) = true <;>
  by_cases hb0 : isBooleanTy (L.Decorations.type (ctx.expr 0)) = true <;>
  by_cases hb1 : isBooleanTy (L.Decorations.type (ctx.expr 1)) = true <;>
  by_cases hc : comparableTypes (L.Decorations.type (ctx.expr 0))
    (L.Decorations.type (ctx.expr 1)) ctx.op.getText = true <;>
  simp [Id.run, hn, ha, ho, he0, he1, hb0, hb1, hc, report, diagnostics, SemErrors.add,
    getTypeDecor, putTypeDecor, putIsLValueDecor, getIsLValueDecor, TreeDecoration.getType,
    TreeDecoration.putType, TreeDecoration.putIsLValue, TreeDecoration.getIsLValue]

/-- Witness of C11: `not 5` gets one `booleanRequired`; `true and 5` gets one
`incompatibleOperator`; `3.5 < 2` gets none; `true == 5` gets one
`incompatibleOperator`; the node is typed boolean and is not an lvalue. -/
theorem exitRelational_checks_witness :
    (exitRelational (RelationalContext.mk 20 [3] ⟨21, "not"⟩ 21 nullptr nullptr)
        (sampleListener .void)).getTypeDecor 20 = TypeId.boolean ∧
    (exitRelational (RelationalContext.mk 20 [3] ⟨21, "not"⟩ 21 nullptr nullptr)
        (sampleListener .void)).getIsLValueDecor 20 = false ∧
    (exitRelational (RelationalContext.mk 20 [3] ⟨21, "not"⟩ 21 nullptr nullptr)
        (sampleListener .void)).diagnostics =
      (sampleListener .void).diagnostics ++ [SemError.booleanRequired 20] ∧
    (exitRelational (RelationalContext.mk 20 [2, 3] ⟨21, "and"⟩ nullptr 21 nullptr)
        (sampleListener .void)).diagnostics =
      (sampleListener .void).diagnostics ++ [SemError.incompatibleOperator 21] ∧
    (exitRelational (RelationalContext.mk 20 [4, 3] ⟨21, "<"⟩ nullptr nullptr nullptr)
        (sampleListener .void)).diagnostics = (sampleListener .void).diagnostics ∧
    (exitRelational (RelationalContext.mk 20 [2, 3] ⟨21, "=="⟩ nullptr nullptr nullptr)
        (sampleListener .void)).diagnostics =
      (sampleListener .void).diagnostics ++ [SemError.incompatibleOperator 21] :=
  ⟨(exitRelational_checks (RelationalContext.mk 20 [3] ⟨21, "not"⟩ 21 nullptr nullptr)
      (sampleListener .void)).1,
    (exitRelational_checks (RelationalContext.mk 20 [3] ⟨21, "not"⟩ 21 nullptr nullptr)
      (sampleListener .void)).2.1,
    (exitRelational_checks (RelationalContext.mk 20 [3] ⟨21, "not"⟩ 21 nullptr nullptr)
      (sampleListener .void)).2.2.1 (by decide),
    (exitRelational_checks (RelationalContext.mk 20 [2, 3] ⟨21, "and"⟩ nullptr 21 nullptr)
      (sampleListener .void)).2.2.2.1 rfl (Or.inl (by decide)),
    (exitRelational_checks (RelationalContext.mk 20 [4, 3] ⟨21, "<"⟩ nullptr nullptr nullptr)
      (sampleListener .void)).2.2.2.2 rfl rfl rfl,
    (exitRelational_checks (RelationalContext.mk 20 [2, 3] ⟨21, "=="⟩ nullptr nullptr nullptr)
      (sampleListener .void)).2.2.2.2 rfl rfl rfl⟩

/-- C12 as stated fails on the code: in `e and 5`, with `e` already typed `error` and
`5` an integer, `exitRelational` emits a diagnostic for the node. -/
theorem exitRelational_and_error_operand_reported :
    ¬ ((isErrorTy ((sampleListener .void).getTypeDecor
            ((RelationalContext.mk 20 [1, 3] ⟨21, "and"⟩ nullptr 21 nullptr).expr 0)) = true ∨
          isErrorTy ((sampleListener .void).getTypeDecor
            ((RelationalContext.mk 20 [1, 3] ⟨21, "and"⟩ nullptr 21 nullptr).expr 1)) = true) →
        (exitRelational (RelationalContext.mk 20 [1, 3] ⟨21, "and"⟩ nullptr 21 nullptr)
          (sampleListener .void)).diagnostics = (sampleListener .void).diagnostics) := by
  decide

/-- C12, amended: for every `not` node whose operand has type `error`, and for every
comparison in which at least one operand has type `error`, `exitRelational` emits no
diagnostic for that node, whatever the type of the other operand; for an `and`/`or`
node in which at least one operand has type `error`, it emits no diagnostic if the other
operand is `error` or boolean, and exactly one `incompatibleOperator` otherwise. -/
theorem exitRelational_error_operand (ctx : RelationalContext) (L : TypeCheckListener) :
    (ctx.NOT ≠ nullptr → isErrorTy (L.getTypeDecor (ctx.expr 0)) = true →
      (exitRelational ctx L).diagnostics = L.diagnostics) ∧
    (ctx.NOT = nullptr → ctx.AND = nullptr → ctx.OR = nullptr →
      (isErrorTy (L.getTypeDecor (ctx.expr 0)) = true ∨
        isErrorTy (L.getTypeDecor (ctx.expr 1)) = true) →
      (exitRelational ctx L).diagnostics = L.diagnostics) ∧
    (ctx.NOT = nullptr → (ctx.AND ≠ nullptr ∨ ctx.OR ≠ nullptr) →
      (isErrorTy (L.getTypeDecor (ctx.expr 0)) = true ∨
        isErrorTy (L.getTypeDecor (ctx.expr 1)) = true) →
      (exitRelational ctx L).diagnostics =
        L.diagnostics ++
          (if ∀ t ∈ [L.getTypeDecor (ctx.expr 0), L.getTypeDecor (ctx.expr 1)],
              isErrorTy t = true ∨ isBooleanTy t = true
            then [] else [SemError.incompatibleOperator ctx.op.node])) := by
  unfold exitRelational
  simp only [getTypeDecor, TreeDecoration.getType]
  by_cases hn : ctx.NOT = nullptr <;>
  by_cases ha : ctx.AND = nullptr <;>
  by_cases ho : ctx.OR = nullptr <;>
  by_cases he0 : isErrorTy (L.Decorations.type (ctx.expr 0)) = true <;>
  by_cases he1 : isErrorTy (L.Decorations.type (ctx.expr 1)) = true <;>
  by_cases hb0 : isBooleanTy (L.Decorations.type (ctx.expr 0)) = true <;>
  by_cases hb1 : isBooleanTy (L.Decorations.type (ctx.expr 1)) = true <;>
  simp [Id.run, hn, ha, ho, he0, he1, hb0, hb1, report, diagnostics, SemErrors.add,
    putTypeDecor, putIsLValueDecor]

/-- Witness of C12 (amended): `not e` and `e < 5` with `e` typed `error` get no
diagnostic; `e and true` gets none; `e and 5` gets one `incompatibleOperator`. -/
theorem exitRelational_error_operand_witness :
    (exitRelational (RelationalContext.mk 20 [1] ⟨21, "not"⟩ 21 nullptr nullptr)
        (sampleListener .void)).diagnostics = (sampleListener .void).diagnostics ∧
    (exitRelational (RelationalContext.mk 20 [1, 3] ⟨21, "<"⟩ nullptr nullptr nullptr)
        (sampleListener .void)).diagnostics = (sampleListener .void).diagnostics ∧
    (exitRelational (RelationalContext.mk 20 [1, 2] ⟨21, "and"⟩ nullptr 21 nullptr)
        (sampleListener .void)).diagnostics = (sampleListener .void).diagnostics ∧
    (exitRelational (RelationalContext.mk 20 [1, 3] ⟨21, "and"⟩ nullptr 21 nullptr)
        (sampleListener .void)).diagnostics =
      (sampleListener .void).diagnostics ++ [SemError.incompatibleOperator 21] :=
  ⟨(exitRelational_error_operand (RelationalContext.mk 20 [1] ⟨21, "not"⟩ 21 nullptr nullptr)
      (sampleListener .void)).1 (by decide) rfl,
    (exitRelational_error_operand
      (RelationalContext.mk 20 [1, 3] ⟨21, "<"⟩ nullptr nullptr nullptr)
      (sampleListener .void)).2.1 rfl rfl rfl (Or.inl rfl),
    (exitRelational_error_operand
      (RelationalContext.mk 20 [1, 2] ⟨21, "and"⟩ nullptr 21 nullptr)
      (sampleListener .void)).2.2 rfl (Or.inl (by decide)) (Or.inl rfl),
    (exitRelational_error_operand
      (RelationalContext.mk 20 [1, 3] ⟨21, "and"⟩ nullptr 21 nullptr)
      (sampleListener .void)).2.2 rfl (Or.inl (by decide)) (Or.inl rfl)⟩

/-! ## Properties of the statement rules -/

/-- C13: for every `if` and every `while` statement, `exitIfStmt` / `exitWhileStmt` emits
exactly one `booleanRequired` iff the condition's type is neither `error` nor boolean,
and emits nothing otherwise. -/
theorem exitIfStmt_exitWhileStmt_checks (ci : IfStmtContext) (cw : WhileStmtContext)
    (L : TypeCheckListener) :
    (exitIfStmt ci L).diagnostics =
      L.diagnostics ++
        (if isErrorTy (L.getTypeDecor ci.expr) = false ∧
            isBooleanTy (L.getTypeDecor ci.expr) = false
          then [SemError.booleanRequired ci.node] else []) ∧
    (exitWhileStmt cw L).diagnostics =
      L.diagnostics ++
        (if isErrorTy (L.getTypeDecor cw.expr) = false ∧
            isBooleanTy (L.getTypeDecor cw.expr) = false
          then [SemError.booleanRequired cw.node] else []) := by
  unfold exitIfStmt exitWhileStmt
  simp only [getTypeDecor, TreeDecoration.getType]
  constructor
  · by_cases he : isErrorTy (L.Decorations.type ci.expr) = true <;>
    by_cases hb : isBooleanTy (L.Decorations.type ci.expr) = true <;>
    simp [Id.run, he, hb, report, diagnostics, SemErrors.add]
  · by_cases he : isErrorTy (L.Decorations.type cw.expr) = true <;>
    by_cases hb : isBooleanTy (L.Decorations.type cw.expr) = true <;>
    simp [Id.run, he, hb, report, diagnostics, SemErrors.add]

/-- The instances of C13 named in the claim: `if 5 then ...` yields exactly one
`booleanRequired`, and a `while` whose condition is typed `error` yields none. -/
theorem exitIfStmt_exitWhileStmt_examples :
    (exitIfStmt (IfStmtContext.mk 80 3) (sampleListener .void)).diagnostics =
      (sampleListener .void).diagnostics ++ [SemError.booleanRequired 80] ∧
    (exitWhileStmt (WhileStmtContext.mk 81 1) (sampleListener .void)).diagnostics =
      (sampleListener .void).diagnostics :=
  ⟨rfl, rfl⟩

/-- C14: for every read statement with target type `t`, `exitReadStmt` emits
`readWriteRequireBasic` iff `t` is not `error`, not primitive and not a function type,
and then `nonReferenceableExpression` iff `t` is not `error` and the target is not an
lvalue; for every write-expression with expression type `t`, `exitWriteExpr` emits
`readWriteRequireBasic` iff `t` is neither `error` nor primitive.  No other diagnostic
is emitted by these two rules. -/
theorem exitReadStmt_exitWriteExpr_checks (cr : ReadStmtContext) (cw : WriteExprContext)
    (L : TypeCheckListener) :
    (exitReadStmt cr L).diagnostics =
      L.diagnostics ++
        (if isErrorTy (L.getTypeDecor cr.left_expr) = false ∧
            isPrimitiveTy (L.getTypeDecor cr.left_expr) = false ∧
            isFunctionTy (L.getTypeDecor cr.left_expr) = false
          then [SemError.readWriteRequireBasic cr.node] else []) ++
        (if isErrorTy (L.getTypeDecor cr.left_expr) = false ∧
            L.getIsLValueDecor cr.left_expr = false
          then [SemError.nonReferenceableExpression cr.node] else []) ∧
    (exitWriteExpr cw L).diagnostics =
      L.diagnostics ++
        (if isErrorTy (L.getTypeDecor cw.expr) = false ∧
            isPrimitiveTy (L.getTypeDecor cw.expr) = false
          then [SemError.readWriteRequireBasic cw.node] else []) := by
  unfold exitReadStmt exitWriteExpr
  simp only [getTypeDecor, getIsLValueDecor, TreeDecoration.getType,
    TreeDecoration.getIsLValue]
  constructor
  · by_cases he : isErrorTy (L.Decorations.type cr.left_expr) = true <;>
    by_cases hp : isPrimitiveTy (L.Decorations.type cr.left_expr) = true <;>
    by_cases hf : isFunctionTy (L.Decorations.type cr.left_expr) = true <;>
    by_cases hl : L.Decorations.isLValue cr.left_expr = true <;>
    simp [Id.run, he, hp, hf, hl, report, diagnostics, SemErrors.add, getTypeDecor,
      getIsLValueDecor, TreeDecoration.getType, TreeDecoration.getIsLValue]
  · by_cases he : isErrorTy (L.Decorations.type cw.expr) = true <;>
    by_cases hp : isPrimitiveTy (L.Decorations.type cw.expr) = true <;>
    simp [Id.run, he, hp, report, diagnostics, SemErrors.add]

/-- The instance of C14 named in the claim: `read(arr)` with `arr` a whole array yields
`readWriteRequireBasic`; reading into a function name yields only
`nonReferenceableExpression`; writing a whole array yields `readWriteRequireBasic`. -/
theorem exitReadStmt_exitWriteExpr_examples :
    (exitReadStmt (ReadStmtContext.mk 82 5) (sampleListener .void)).diagnostics =
      (sampleListener .void).diagnostics ++ [SemError.readWriteRequireBasic 82] ∧
    (exitReadStmt (ReadStmtContext.mk 82 6) (sampleListener .void)).diagnostics =
      (sampleListener .void).diagnostics ++ [SemError.nonReferenceableExpression 82] ∧
    (exitWriteExpr (WriteExprContext.mk 83 5) (sampleListener .void)).diagnostics =
      (sampleListener .void).diagnostics ++ [SemError.readWriteRequireBasic 83] :=
  ⟨rfl, rfl, rfl⟩

/-! ## Properties of the call rules -/

/-- C15: for every call node whose callee identifier's type is not a function type: if
that type is not `error`, `exitProcedure` emits exactly one `isNotCallable` and writes
type `error`; if that type is `error`, it writes type `error` and emits no diagnostic;
in both cases no `numberOfParameters` and no `incompatibleParameter` is emitted. -/
theorem exitProcedure_not_function (ctx : ProcedureContext) (L : TypeCheckListener)
    (hnf : isFunctionTy (L.getTypeDecor ctx.ident) = false) :
    (exitProcedure ctx L).getTypeDecor ctx.node = createErrorTy ∧
    (isErrorTy (L.getTypeDecor ctx.ident) = false →
      (exitProcedure ctx L).diagnostics =
        L.diagnostics ++ [SemError.isNotCallable ctx.ident]) ∧
    (isErrorTy (L.getTypeDecor ctx.ident) = true →
      (exitProcedure ctx L).diagnostics = L.diagnostics) := by
  unfold exitProcedure
  simp only [getTypeDecor, TreeDecoration.getType] at hnf ⊢
  by_cases he : isErrorTy (L.Decorations.type ctx.ident) = true <;>
  simp [Id.run, hnf, he, report, diagnostics, SemErrors.add, getTypeDecor, putTypeDecor,
    TreeDecoration.getType, TreeDecoration.putType]

/-- Witness of C15: calling the integer variable of node 3 with two arguments yields one
`isNotCallable` and type `error`; calling the undeclared name of node 1 yields type
`error` and nothing else. -/
theorem exitProcedure_not_function_witness :
    isFunctionTy ((sampleListener .void).getTypeDecor (ProcedureContext.mk 30 3 [2, 4]).ident)
      = false ∧
    (exitProcedure (ProcedureContext.mk 30 3 [2, 4]) (sampleListener .void)).getTypeDecor 30
      = TypeId.error ∧
    (exitProcedure (ProcedureContext.mk 30 3 [2, 4]) (sampleListener .void)).diagnostics =
      (sampleListener .void).diagnostics ++ [SemError.isNotCallable 3] ∧
    (exitProcedure (ProcedureContext.mk 30 1 [2, 4]) (sampleListener .void)).getTypeDecor 30
      = TypeId.error ∧
    (exitProcedure (ProcedureContext.mk 30 1 [2, 4]) (sampleListener .void)).diagnostics =
      (sampleListener .void).diagnostics :=
  ⟨rfl,
    (exitProcedure_not_function (ProcedureContext.mk 30 3 [2, 4]) (sampleListener .void) rfl).1,
    (exitProcedure_not_function (ProcedureContext.mk 30 3 [2, 4])
      (sampleListener .void) rfl).2.1 rfl,
    (exitProcedure_not_function (ProcedureContext.mk 30 1 [2, 4]) (sampleListener .void) rfl).1,
    (exitProcedure_not_function (ProcedureContext.mk 30 1 [2, 4])
      (sampleListener .void) rfl).2.2 rfl⟩

/-- C16: for every call used in expression position: if the call's own type is not
`error` and the callee identifier's type is a void function, `exitProcExpr` emits
exactly one `isNotFunction` and writes type `error`; otherwise it emits nothing and
writes the call's type unchanged.  For a call used as a statement, `exitProcCall` never
emits a diagnostic and writes the call's type unchanged. -/
theorem exitProcExpr_exitProcCall_checks (ce : ProcExprContext) (cs : ProcCallContext)
    (L : TypeCheckListener) :
    ((isErrorTy (L.getTypeDecor ce.procedure.node) = false ∧
        isVoidFunction (L.getTypeDecor ce.procedure.ident) = true) →
      (exitProcExpr ce L).diagnostics =
        L.diagnostics ++ [SemError.isNotFunction ce.procedure.ident] ∧
      (exitProcExpr ce L).getTypeDecor ce.node = createErrorTy) ∧
    (¬ (isErrorTy (L.getTypeDecor ce.procedure.node) = false ∧
        isVoidFunction (L.getTypeDecor ce.procedure.ident) = true) →
      (exitProcExpr ce L).diagnostics = L.diagnostics ∧
      (exitProcExpr ce L).getTypeDecor ce.node = L.getTypeDecor ce.procedure.node) ∧
    (exitProcCall cs L).diagnostics = L.diagnostics ∧
    (exitProcCall cs L).getTypeDecor cs.node = L.getTypeDecor cs.procedure.node := by
  unfold exitProcExpr exitProcCall
  simp only [getTypeDecor, TreeDecoration.getType]
  by_cases he : isErrorTy (L.Decorations.type ce.procedure.node) = true <;>
  by_cases hv : isVoidFunction (L.Decorations.type ce.procedure.ident) = true <;>
  simp [Id.run, he, hv, report, diagnostics, SemErrors.add, getTypeDecor, putTypeDecor,
    TreeDecoration.getType, TreeDecoration.putType]

/-- Witness of C16: the call `p()` of the procedure of node 7, typed `void` as a call
(node 9), is reported once and typed `error` in expression position, and is accepted
with its type unchanged as a statement; the call of the function of node 6, typed
`integer` as a call (node 3), is accepted in expression position. -/
theorem exitProcExpr_exitProcCall_checks_witness :
    ((exitProcExpr (ProcExprContext.mk 90 (ProcedureContext.mk 9 7 []))
        (sampleListener .void)).diagnostics =
        (sampleListener .void).diagnostics ++ [SemError.isNotFunction 7] ∧
      (exitProcExpr (ProcExprContext.mk 90 (ProcedureContext.mk 9 7 []))
        (sampleListener .void)).getTypeDecor 90 = TypeId.error) ∧
    ((exitProcExpr (ProcExprContext.mk 90 (ProcedureContext.mk 3 6 [4, 3]))
        (sampleListener .void)).diagnostics = (sampleListener .void).diagnostics ∧
      (exitProcExpr (ProcExprContext.mk 90 (ProcedureContext.mk 3 6 [4, 3]))
        (sampleListener .void)).getTypeDecor 90 = TypeId.integer) ∧
    (exitProcCall (ProcCallContext.mk 91 (ProcedureContext.mk 9 7 []))
        (sampleListener .void)).diagnostics = (sampleListener .void).diagnostics ∧
    (exitProcCall (ProcCallContext.mk 91 (ProcedureContext.mk 9 7 []))
        (sampleListener .void)).getTypeDecor 91 = TypeId.void :=
  ⟨(exitProcExpr_exitProcCall_checks (ProcExprContext.mk 90 (ProcedureContext.mk 9 7 []))
      (ProcCallContext.mk 91 (ProcedureContext.mk 9 7 [])) (sampleListener .void)).1
      ⟨rfl, rfl⟩,
    (exitProcExpr_exitProcCall_checks (ProcExprContext.mk 90 (ProcedureContext.mk 3 6 [4, 3]))
      (ProcCallContext.mk 91 (ProcedureContext.mk 9 7 [])) (sampleListener .void)).2.1
      (by decide),
    (exitProcExpr_exitProcCall_checks (ProcExprContext.mk 90 (ProcedureContext.mk 9 7 []))
      (ProcCallContext.mk 91 (ProcedureContext.mk 9 7 [])) (sampleListener .void)).2.2.1,
    (exitProcExpr_exitProcCall_checks (ProcExprContext.mk 90 (ProcedureContext.mk 9 7 []))
      (ProcCallContext.mk 91 (ProcedureContext.mk 9 7 [])) (sampleListener .void)).2.2.2⟩

/-! ## The rules inside a function body leave the scopes alone -/

/-- A listener is a frame of itself. -/
theorem Frame_refl (w : Option Node) (L : TypeCheckListener) : Frame w L L :=
  ⟨rfl, rfl, rfl, ⟨[], by simp⟩, fun _ _ => ⟨rfl, rfl⟩⟩

/-- Frames compose. -/
theorem Frame_trans {w : Option Node} {L1 L2 L3 : TypeCheckListener}
    (h12 : Frame w L1 L2) (h23 : Frame w L2 L3) : Frame w L1 L3 := by
  obtain ⟨a1, a2, a3, ⟨s1, a4⟩, a5⟩ := h12
  obtain ⟨b1, b2, b3, ⟨s2, b4⟩, b5⟩ := h23
  refine ⟨b1.trans a1, b2.trans a2, b3.trans a3, ⟨s1 ++ s2, ?_⟩, fun n hn => ?_⟩
  · rw [b4, a4, List.append_assoc]
  · exact ⟨(b5 n hn).1.trans (a5 n hn).1, (b5 n hn).2.trans (a5 n hn).2⟩

/-- A step that decorates no node is a frame for any node. -/
theorem Frame_of_none {L1 L2 : TypeCheckListener} (w : Option Node) (h : Frame none L1 L2) :
    Frame w L1 L2 :=
  ⟨h.1, h.2.1, h.2.2.1, h.2.2.2.1, fun n _ => h.2.2.2.2 n (by simp)⟩

/-- Reporting an error decorates no node. -/
theorem Frame_report (w : Option Node) (L : TypeCheckListener) (e : SemError) :
    Frame w L (L.report e) :=
  ⟨rfl, rfl, rfl, ⟨[e], rfl⟩, fun _ _ => ⟨rfl, rfl⟩⟩

/-- Writing the type of a node touches that node only. -/
theorem Frame_putTypeDecor (L : TypeCheckListener) (n : Node) (t : TypeId) :
    Frame (some n) L (L.putTypeDecor n t) := by
  refine ⟨rfl, rfl, rfl, ⟨[], by simp [putTypeDecor]⟩, fun m hm => ?_⟩
  simp only [ne_eq, Option.some.injEq] at hm
  simp [putTypeDecor, TreeDecoration.putType, hm]

/-- The parameter loop of `exitProcedure` only appends diagnostics. -/
theorem frame_foldl_exitProcedureArg (ctx : ProcedureContext) (t : TypeId) (l : List Nat)
    (L : TypeCheckListener) : Frame none L (l.foldl (exitProcedureArg ctx t) L) := by
  induction l generalizing L with
  | nil => exact Frame_refl none L
  | cons a l ih =>
    rw [List.foldl_cons]
    refine Frame_trans ?_ (ih _)
    unfold exitProcedureArg
    simp only []
    split_ifs
    · exact Frame_report _ _ _
    · exact Frame_refl _ _

/-- The rule `exitProcedure` is a frame at its node. -/
theorem frame_exitProcedure (ctx : ProcedureContext) (L : TypeCheckListener) :
    Frame (some ctx.node) L (exitProcedure ctx L) := by
  unfold exitProcedure
  simp only [Id.run]
  split_ifs
  · exact Frame_trans (Frame_report _ _ _) (Frame_putTypeDecor _ _ _)
  · exact Frame_putTypeDecor _ _ _
  · exact Frame_trans (Frame_report _ _ _) (Frame_putTypeDecor _ _ _)
  · exact Frame_trans (Frame_of_none _ (frame_foldl_exitProcedureArg _ _ _ _))
      (Frame_putTypeDecor _ _ _)
  · exact Frame_refl _ _

/-- Writing the lvalue flag of a node touches that node only. -/
theorem Frame_putIsLValueDecor (L : TypeCheckListener) (n : Node) (b : Bool) :
    Frame (some n) L (L.putIsLValueDecor n b) := by
  refine ⟨rfl, rfl, rfl, ⟨[], by simp [putIsLValueDecor]⟩, fun m hm => ?_⟩
  simp only [ne_eq, Option.some.injEq] at hm
  simp [putIsLValueDecor, TreeDecoration.putIsLValue, hm]

set_option maxHeartbeats 2000000 in
/-- The rule `exitAssignStmt` decorates no node. -/
theorem frame_exitAssignStmt (ctx : AssignStmtContext) (L : TypeCheckListener) :
    Frame none L (exitAssignStmt ctx L) := by
  simp only [exitAssignStmt, Id.run, Id.pure_eq, Id.bind_eq, pure_bind]
  split_ifs <;>
  repeat (first
    | exact Frame_refl _ _
    | exact Frame_report _ _ _
    | exact Frame_putTypeDecor _ _ _
    | exact Frame_putIsLValueDecor _ _ _
    | refine Frame_trans ?_ (Frame_report _ _ _)
    | refine Frame_trans ?_ (Frame_putTypeDecor _ _ _)
    | refine Frame_trans ?_ (Frame_putIsLValueDecor _ _ _))

/-- The rule `exitIfStmt` decorates no node. -/
theorem frame_exitIfStmt (ctx : IfStmtContext) (L : TypeCheckListener) :
    Frame none L (exitIfStmt ctx L) := by
  simp only [exitIfStmt, Id.run, Id.pure_eq, Id.bind_eq, pure_bind]
  split_ifs <;>
  repeat (first
    | exact Frame_refl _ _
    | exact Frame_report _ _ _
    | exact Frame_putTypeDecor _ _ _
    | exact Frame_putIsLValueDecor _ _ _
    | refine Frame_trans ?_ (Frame_report _ _ _)
    | refine Frame_trans ?_ (Frame_putTypeDecor _ _ _)
    | refine Frame_trans ?_ (Frame_putIsLValueDecor _ _ _))

/-- The rule `exitWhileStmt` decorates no node. -/
theorem frame_exitWhileStmt (ctx : WhileStmtContext) (L : TypeCheckListener) :
    Frame none L (exitWhileStmt ctx L) := by
  simp only [exitWhileStmt, Id.run, Id.pure_eq, Id.bind_eq, pure_bind]
  split_ifs <;>
  repeat (first
    | exact Frame_refl _ _
    | exact Frame_report _ _ _
    | exact Frame_putTypeDecor _ _ _
    | exact Frame_putIsLValueDecor _ _ _
    | refine Frame_trans ?_ (Frame_report _ _ _)
    | refine Frame_trans ?_ (Frame_putTypeDecor _ _ _)
    | refine Frame_trans ?_ (Frame_putIsLValueDecor _ _ _))

/-- The rule `exitProcCall` is a frame at its node. -/
theorem frame_exitProcCall (ctx : ProcCallContext) (L : TypeCheckListener) :
    Frame (some ctx.node) L (exitProcCall ctx L) := by
  simp only [exitProcCall, Id.run, Id.pure_eq, Id.bind_eq, pure_bind]
  repeat (first
    | exact Frame_refl _ _
    | exact Frame_report _ _ _
    | exact Frame_putTypeDecor _ _ _
    | exact Frame_putIsLValueDecor _ _ _
    | refine Frame_trans ?_ (Frame_report _ _ _)
    | refine Frame_trans ?_ (Frame_putTypeDecor _ _ _)
    | refine Frame_trans ?_ (Frame_putIsLValueDecor _ _ _))

/-- The rule `exitReadStmt` decorates no node. -/
theorem frame_exitReadStmt (ctx : ReadStmtContext) (L : TypeCheckListener) :
    Frame none L (exitReadStmt ctx L) := by
  simp only [exitReadStmt, Id.run, Id.pure_eq, Id.bind_eq, pure_bind]
  split_ifs <;>
  repeat (first
    | exact Frame_refl _ _
    | exact Frame_report _ _ _
    | exact Frame_putTypeDecor _ _ _
    | exact Frame_putIsLValueDecor _ _ _
    | refine Frame_trans ?_ (Frame_report _ _ _)
    | refine Frame_trans ?_ (Frame_putTypeDecor _ _ _)
    | refine Frame_trans ?_ (Frame_putIsLValueDecor _ _ _))

/-- The rule `exitWriteExpr` decorates no node. -/
theorem frame_exitWriteExpr (ctx : WriteExprContext) (L : TypeCheckListener) :
    Frame none L (exitWriteExpr ctx L) := by
  simp only [exitWriteExpr, Id.run, Id.pure_eq, Id.bind_eq, pure_bind]
  split_ifs <;>
  repeat (first
    | exact Frame_refl _ _
    | exact Frame_report _ _ _
    | exact Frame_putTypeDecor _ _ _
    | exact Frame_putIsLValueDecor _ _ _
    | refine Frame_trans ?_ (Frame_report _ _ _)
    | refine Frame_trans ?_ (Frame_putTypeDecor _ _ _)
    | refine Frame_trans ?_ (Frame_putIsLValueDecor _ _ _))

/-- The rule `exitReturnExpr_` decorates no node. -/
theorem frame_exitReturnExpr_ (ctx : ReturnExpr_Context) (L : TypeCheckListener) :
    Frame none L (exitReturnExpr_ ctx L) := by
  simp only [exitReturnExpr_, Id.run, Id.pure_eq, Id.bind_eq, pure_bind]
  split_ifs <;>
  repeat (first
    | exact Frame_refl _ _
    | exact Frame_report _ _ _
    | exact Frame_putTypeDecor _ _ _
    | exact Frame_putIsLValueDecor _ _ _
    | refine Frame_trans ?_ (Frame_report _ _ _)
    | refine Frame_trans ?_ (Frame_putTypeDecor _ _ _)
    | refine Frame_trans ?_ (Frame_putIsLValueDecor _ _ _))

/-- The rule `exitLeft_expr` is a frame at its node. -/
theorem frame_exitLeft_expr (ctx : Left_exprContext) (L : TypeCheckListener) :
    Frame (some ctx.node) L (exitLeft_expr ctx L) := by
  simp only [exitLeft_expr, Id.run, Id.pure_eq, Id.bind_eq, pure_bind]
  split_ifs <;>
  repeat (first
    | exact Frame_refl _ _
    | exact Frame_report _ _ _
    | exact Frame_putTypeDecor _ _ _
    | exact Frame_putIsLValueDecor _ _ _
    | refine Frame_trans ?_ (Frame_report _ _ _)
    | refine Frame_trans ?_ (Frame_putTypeDecor _ _ _)
    | refine Frame_trans ?_ (Frame_putIsLValueDecor _ _ _))

/-- The rule `exitArithmetic` is a frame at its node. -/
theorem frame_exitArithmetic (ctx : ArithmeticContext) (L : TypeCheckListener) :
    Frame (some ctx.node) L (exitArithmetic ctx L) := by
  simp only [exitArithmetic, Id.run, Id.pure_eq, Id.bind_eq, pure_bind]
  split_ifs <;>
  repeat (first
    | exact Frame_refl _ _
    | exact Frame_report _ _ _
    | exact Frame_putTypeDecor _ _ _
    | exact Frame_putIsLValueDecor _ _ _
    | refine Frame_trans ?_ (Frame_report _ _ _)
    | refine Frame_trans ?_ (Frame_putTypeDecor _ _ _)
    | refine Frame_trans ?_ (Frame_putIsLValueDecor _ _ _))

/-- The rule `exitRelational` is a frame at its node. -/
theorem frame_exitRelational (ctx : RelationalContext) (L : TypeCheckListener) :
    Frame (some ctx.node) L (exitRelational ctx L) := by
  simp only [exitRelational, Id.run, Id.pure_eq, Id.bind_eq, pure_bind]
  split_ifs <;>
  repeat (first
    | exact Frame_refl _ _
    | exact Frame_report _ _ _
    | exact Frame_putTypeDecor _ _ _
    | exact Frame_putIsLValueDecor _ _ _
    | refine Frame_trans ?_ (Frame_report _ _ _)
    | refine Frame_trans ?_ (Frame_putTypeDecor _ _ _)
    | refine Frame_trans ?_ (Frame_putIsLValueDecor _ _ _))

/-- The rule `exitValue` is a frame at its node. -/
theorem frame_exitValue (ctx : ValueContext) (L : TypeCheckListener) :
    Frame (some ctx.node) L (exitValue ctx L) := by
  simp only [exitValue, Id.run, Id.pure_eq, Id.bind_eq, pure_bind]
  split_ifs <;>
  repeat (first
    | exact Frame_refl _ _
    | exact Frame_report _ _ _
    | exact Frame_putTypeDecor _ _ _
    | exact Frame_putIsLValueDecor _ _ _
    | refine Frame_trans ?_ (Frame_report _ _ _)
    | refine Frame_trans ?_ (Frame_putTypeDecor _ _ _)
    | refine Frame_trans ?_ (Frame_putIsLValueDecor _ _ _))

/-- The rule `exitProcExpr` is a frame at its node. -/
theorem frame_exitProcExpr (ctx : ProcExprContext) (L : TypeCheckListener) :
    Frame (some ctx.node) L (exitProcExpr ctx L) := by
  simp only [exitProcExpr, Id.run, Id.pure_eq, Id.bind_eq, pure_bind]
  split_ifs <;>
  repeat (first
    | exact Frame_refl _ _
    | exact Frame_report _ _ _
    | exact Frame_putTypeDecor _ _ _
    | exact Frame_putIsLValueDecor _ _ _
    | refine Frame_trans ?_ (Frame_report _ _ _)
    | refine Frame_trans ?_ (Frame_putTypeDecor _ _ _)
    | refine Frame_trans ?_ (Frame_putIsLValueDecor _ _ _))

/-- The rule `exitExprIdent` is a frame at its node. -/
theorem frame_exitExprIdent (ctx : ExprIdentContext) (L : TypeCheckListener) :
    Frame (some ctx.node) L (exitExprIdent ctx L) := by
  simp only [exitExprIdent, Id.run, Id.pure_eq, Id.bind_eq, pure_bind]
  split_ifs <;>
  repeat (first
    | exact Frame_refl _ _
    | exact Frame_report _ _ _
    | exact Frame_putTypeDecor _ _ _
    | exact Frame_putIsLValueDecor _ _ _
    | refine Frame_trans ?_ (Frame_report _ _ _)
    | refine Frame_trans ?_ (Frame_putTypeDecor _ _ _)
    | refine Frame_trans ?_ (Frame_putIsLValueDecor _ _ _))

/-- The rule `exitParenthesis` is a frame at its node. -/
theorem frame_exitParenthesis (ctx : ParenthesisContext) (L : TypeCheckListener) :
    Frame (some ctx.node) L (exitParenthesis ctx L) := by
  simp only [exitParenthesis, Id.run, Id.pure_eq, Id.bind_eq, pure_bind]
  repeat (first
    | exact Frame_refl _ _
    | exact Frame_report _ _ _
    | exact Frame_putTypeDecor _ _ _
    | exact Frame_putIsLValueDecor _ _ _
    | refine Frame_trans ?_ (Frame_report _ _ _)
    | refine Frame_trans ?_ (Frame_putTypeDecor _ _ _)
    | refine Frame_trans ?_ (Frame_putIsLValueDecor _ _ _))

/-- The rule `exitIdent` is a frame at its node. -/
theorem frame_exitIdent (ctx : IdentContext) (L : TypeCheckListener) :
    Frame (some ctx.node) L (exitIdent ctx L) := by
  simp only [exitIdent, Id.run, Id.pure_eq, Id.bind_eq, pure_bind]
  split_ifs <;>
  repeat (first
    | exact Frame_refl _ _
    | exact Frame_report _ _ _
    | exact Frame_putTypeDecor _ _ _
    | exact Frame_putIsLValueDecor _ _ _
    | refine Frame_trans ?_ (Frame_report _ _ _)
    | refine Frame_trans ?_ (Frame_putTypeDecor _ _ _)
    | refine Frame_trans ?_ (Frame_putIsLValueDecor _ _ _))

/-- Every rule fired inside a function body leaves the symbol table, the scope
decorations and the output of `print()` alone, only appends to the diagnostics, and
writes type and lvalue decorations at its own node only. -/
theorem fire_frame (r : BodyRule) (L : TypeCheckListener) :
    Frame r.decorated L (r.fire L) := by
  cases r with
  | debugOnly => exact Frame_refl _ _
  | exitAssignStmt ctx => exact frame_exitAssignStmt ctx L
  | exitIfStmt ctx => exact frame_exitIfStmt ctx L
  | exitWhileStmt ctx => exact frame_exitWhileStmt ctx L
  | exitProcCall ctx => exact frame_exitProcCall ctx L
  | exitReadStmt ctx => exact frame_exitReadStmt ctx L
  | exitWriteExpr ctx => exact frame_exitWriteExpr ctx L
  | exitReturnExpr_ ctx => exact frame_exitReturnExpr_ ctx L
  | exitLeft_expr ctx => exact frame_exitLeft_expr ctx L
  | exitArithmetic ctx => exact frame_exitArithmetic ctx L
  | exitRelational ctx => exact frame_exitRelational ctx L
  | exitValue ctx => exact frame_exitValue ctx L
  | exitProcedure ctx => exact frame_exitProcedure ctx L
  | exitProcExpr ctx => exact frame_exitProcExpr ctx L
  | exitExprIdent ctx => exact frame_exitExprIdent ctx L
  | exitParenthesis ctx => exact frame_exitParenthesis ctx L
  | exitIdent ctx => exact frame_exitIdent ctx L

/-- Firing any sequence of body rules leaves the symbol table, the scope decorations and
the output of `print()` alone, only appends to the diagnostics, and leaves alone the
type and lvalue decorations of every node that none of the rules decorates. -/
theorem walkBody_keeps (body : List BodyRule) (L : TypeCheckListener) :
    (walkBody body L).Symbols = L.Symbols ∧
    (walkBody body L).Decorations.scope = L.Decorations.scope ∧
    (walkBody body L).Errors.printed = L.Errors.printed ∧
    (∃ suffix, (walkBody body L).Errors.errors = L.Errors.errors ++ suffix) ∧
    ∀ n, (∀ r ∈ body, some n ≠ r.decorated) →
      (walkBody body L).Decorations.type n = L.Decorations.type n ∧
      (walkBody body L).Decorations.isLValue n = L.Decorations.isLValue n := by
  induction body generalizing L with
  | nil => exact ⟨rfl, rfl, rfl, ⟨[], by simp [walkBody]⟩, fun _ _ => ⟨rfl, rfl⟩⟩
  | cons r body ih =>
    obtain ⟨a1, a2, a3, ⟨s1, a4⟩, a5⟩ := fire_frame r L
    obtain ⟨b1, b2, b3, ⟨s2, b4⟩, b5⟩ := ih (r.fire L)
    have hw : walkBody (r :: body) L = walkBody body (r.fire L) := rfl
    rw [hw]
    refine ⟨b1.trans a1, b2.trans a2, b3.trans a3, ⟨s1 ++ s2, ?_⟩, fun n hn => ?_⟩
    · rw [b4, a4, List.append_assoc]
    · have h1 := a5 n (hn r (List.mem_cons_self r body))
      have h2 := b5 n (fun q hq => hn q (List.mem_cons_of_mem r hq))
      exact ⟨h2.1.trans h1.1, h2.2.trans h1.2⟩

/-- The rule `enterFunction` pushes the scope of its node on the stack of active scopes
and overwrites the current function type; it changes nothing else. -/
theorem enterFunction_keeps (ctx : FunctionContext) (indeterminate : TypeId)
    (L : TypeCheckListener) :
    (∃ t, (enterFunction ctx indeterminate L).Symbols =
      (L.Symbols.pushThisScope (L.getScopeDecor ctx.node)).setCurrentFunctionTy t) ∧
    (enterFunction ctx indeterminate L).Decorations = L.Decorations ∧
    (enterFunction ctx indeterminate L).Errors = L.Errors := by
  exact ⟨⟨_, rfl⟩, rfl, rfl⟩

/-- The walk of one function restores the stack of active scopes, leaves the scopes, the
scope decorations and the output of `print()` alone, and only appends to the
diagnostics. -/
theorem walkFunction_keeps (f : FunctionWalk) (L : TypeCheckListener) :
    (walkFunction f L).Symbols.stack = L.Symbols.stack ∧
    (walkFunction f L).Symbols.scopes = L.Symbols.scopes ∧
    (walkFunction f L).Decorations.scope = L.Decorations.scope ∧
    (walkFunction f L).Errors.printed = L.Errors.printed ∧
    (∃ suffix, (walkFunction f L).Errors.errors = L.Errors.errors ++ suffix) := by
  obtain ⟨⟨t, e1⟩, e2, e3⟩ := enterFunction_keeps f.ctx f.indeterminate L
  obtain ⟨b1, b2, b3, ⟨s, b4⟩, _⟩ := walkBody_keeps f.body (enterFunction f.ctx f.indeterminate L)
  unfold walkFunction exitFunction
  refine ⟨?_, ?_, ?_, ?_, ⟨s, ?_⟩⟩
  · simp [SymTable.popScope, b1, e1, SymTable.pushThisScope, SymTable.setCurrentFunctionTy]
  · simp [SymTable.popScope, b1, e1, SymTable.pushThisScope, SymTable.setCurrentFunctionTy]
  · simp only [b2, e2]
  · simp only [b3, e3]
  · simp only [b4, e3]

/-- The walks of any number of functions restore the stack of active scopes, leave the
scopes, the scope decorations and the output of `print()` alone, and only append to the
diagnostics. -/
theorem walkFunctions_keeps (fs : List FunctionWalk) (L : TypeCheckListener) :
    (walkFunctions fs L).Symbols.stack = L.Symbols.stack ∧
    (walkFunctions fs L).Symbols.scopes = L.Symbols.scopes ∧
    (walkFunctions fs L).Decorations.scope = L.Decorations.scope ∧
    (walkFunctions fs L).Errors.printed = L.Errors.printed ∧
    (∃ suffix, (walkFunctions fs L).Errors.errors = L.Errors.errors ++ suffix) := by
  induction fs generalizing L with
  | nil => exact ⟨rfl, rfl, rfl, rfl, ⟨[], by simp [walkFunctions]⟩⟩
  | cons f fs ih =>
    obtain ⟨a1, a2, a3, a4, ⟨s1, a5⟩⟩ := walkFunction_keeps f L
    obtain ⟨b1, b2, b3, b4, ⟨s2, b5⟩⟩ := ih (walkFunction f L)
    have hw : walkFunctions (f :: fs) L = walkFunctions fs (walkFunction f L) := rfl
    rw [hw]
    refine ⟨b1.trans a1, b2.trans a2, b3.trans a3, b4.trans a4, ⟨s1 ++ s2, ?_⟩⟩
    rw [b5, a5, List.append_assoc]

/-! ## Properties of the traversal -/

/-- C18: scope push/pop discipline.  `enterProgram` and `enterFunction` each push exactly
the scope of their node, `exitProgram` and `exitFunction` each pop exactly one scope, and
no rule fired inside a function body pushes or pops.  Hence, in the traversal of a
program from the listener `L`: after any functions `done` have been walked, inside the
body of a function `f` (whatever rules `pre` of the body have fired so far) the stack of
active scopes is the initial stack plus the program scope plus the scope of `f`; between
functions it is the initial stack plus the program scope; and after `exitProgram` it
equals the stack before `enterProgram`. -/
theorem scope_discipline (p : ProgramWalk) (L : TypeCheckListener) :
    (∀ (ctx : ProgramContext) (K : TypeCheckListener),
      (enterProgram ctx K).Symbols = K.Symbols.pushThisScope (K.getScopeDecor ctx.node) ∧
      (exitProgram ctx K).Symbols = K.Symbols.popScope) ∧
    (∀ (ctx : FunctionContext) (indeterminate : TypeId) (K : TypeCheckListener),
      (enterFunction ctx indeterminate K).Symbols.stack =
        (K.Symbols.pushThisScope (K.getScopeDecor ctx.node)).stack ∧
      (exitFunction ctx K).Symbols = K.Symbols.popScope) ∧
    (∀ (r : BodyRule) (K : TypeCheckListener), (r.fire K).Symbols = K.Symbols) ∧
    (∀ (done : List FunctionWalk) (f : FunctionWalk) (pre : List BodyRule),
      (walkBody pre (enterFunction f.ctx f.indeterminate
          (walkFunctions done (enterProgram p.ctx L)))).Symbols.stack =
        L.getScopeDecor f.ctx.node :: L.getScopeDecor p.ctx.node :: L.Symbols.stack) ∧
    (∀ (done : List FunctionWalk),
      (walkFunctions done (enterProgram p.ctx L)).Symbols.stack =
        L.getScopeDecor p.ctx.node :: L.Symbols.stack) ∧
    (walkProgram p L).Symbols.stack = L.Symbols.stack := by
  have hbetween : ∀ (done : List FunctionWalk),
      (walkFunctions done (enterProgram p.ctx L)).Symbols.stack =
        L.getScopeDecor p.ctx.node :: L.Symbols.stack := by
    intro done
    rw [(walkFunctions_keeps done (enterProgram p.ctx L)).1]
    rfl
  refine ⟨fun ctx K => ⟨rfl, ?_⟩, fun ctx ind K => ⟨rfl, rfl⟩,
    fun r K => (fire_frame r K).1, ?_, hbetween, ?_⟩
  · simp only [exitProgram, Id.run, Id.pure_eq, Id.bind_eq, pure_bind]
    split_ifs <;> rfl
  · intro done f pre
    rw [(walkBody_keeps pre _).1]
    obtain ⟨⟨t, e1⟩, e2, _⟩ := enterFunction_keeps f.ctx f.indeterminate
      (walkFunctions done (enterProgram p.ctx L))
    rw [e1]
    simp only [SymTable.setCurrentFunctionTy, SymTable.pushThisScope, hbetween done,
      getScopeDecor, TreeDecoration.getScope,
      (walkFunctions_keeps done (enterProgram p.ctx L)).2.2.1]
    rfl
  · have h := hbetween p.functions
    simp only [walkProgram, exitProgram, Id.run, Id.pure_eq, Id.bind_eq, pure_bind]
    split_ifs <;> simp [SymTable.popScope, report, h]

/-- C17: `exitProgram` appends `noMainProperlyDeclared` iff the symbol table's
`noMainProperlyDeclared()` is true on the table as it stands before `popScope`, and
then calls `print()` on the resulting collection.  In the traversal of a program that
test is evaluated with the program scope on top of the initial stack; the diagnostic
comes after every diagnostic collected during the traversal of the body; and the
output of `print()` grows by exactly one entry, which is the final collection. -/
theorem exitProgram_reports_and_prints (p : ProgramWalk) (L : TypeCheckListener) :
    (∀ (ctx : ProgramContext) (K : TypeCheckListener),
      (exitProgram ctx K).diagnostics =
        K.diagnostics ++
          (if K.Symbols.noMainProperlyDeclared = true
            then [SemError.noMainProperlyDeclared ctx.node] else []) ∧
      (exitProgram ctx K).Errors.printed =
        K.Errors.printed ++ [(exitProgram ctx K).diagnostics]) ∧
    (walkFunctions p.functions (enterProgram p.ctx L)).Symbols.noMainProperlyDeclared =
      (L.Symbols.pushThisScope (L.getScopeDecor p.ctx.node)).noMainProperlyDeclared ∧
    (∃ body,
      (walkFunctions p.functions (enterProgram p.ctx L)).diagnostics =
        L.diagnostics ++ body ∧
      (walkProgram p L).diagnostics =
        L.diagnostics ++ body ++
          (if (L.Symbols.pushThisScope (L.getScopeDecor p.ctx.node)).noMainProperlyDeclared
              = true
            then [SemError.noMainProperlyDeclared p.ctx.node] else [])) ∧
    (walkProgram p L).Errors.printed = L.Errors.printed ++ [(walkProgram p L).diagnostics] := by
  have hrule : ∀ (ctx : ProgramContext) (K : TypeCheckListener),
      (exitProgram ctx K).diagnostics =
        K.diagnostics ++
          (if K.Symbols.noMainProperlyDeclared = true
            then [SemError.noMainProperlyDeclared ctx.node] else []) ∧
      (exitProgram ctx K).Errors.printed =
        K.Errors.printed ++ [(exitProgram ctx K).diagnostics] := by
    intro ctx K
    simp only [exitProgram, Id.run, Id.pure_eq, Id.bind_eq, pure_bind]
    split_ifs <;> simp [diagnostics, report, SemErrors.add, SemErrors.print]
  obtain ⟨k1, k2, _, k4, ⟨body, k5⟩⟩ := walkFunctions_keeps p.functions (enterProgram p.ctx L)
  have hmain : (walkFunctions p.functions (enterProgram p.ctx L)).Symbols.noMainProperlyDeclared =
      (L.Symbols.pushThisScope (L.getScopeDecor p.ctx.node)).noMainProperlyDeclared := by
    simp only [SymTable.noMainProperlyDeclared, SymTable.scopeOf, k1, k2]
    rfl
  refine ⟨hrule, hmain, ⟨body, k5, ?_⟩, ?_⟩
  · have h := (hrule p.ctx (walkFunctions p.functions (enterProgram p.ctx L))).1
    rw [hmain] at h
    rw [walkProgram, h, diagnostics, k5]
    rfl
  · have h := (hrule p.ctx (walkFunctions p.functions (enterProgram p.ctx L))).2
    rw [walkProgram, h, k4]
    rfl

/-! ## The two forms of an access -/

/-- Apart from an indexed access whose base is already typed `error`, `exitLeft_expr`
and `exitExprIdent` agree on the diagnostics, the type and the lvalue flag. -/
theorem exitLeft_expr_exitExprIdent_agree (node ident intval expr : Node)
    (L : TypeCheckListener)
    (h : (intval ≠ nullptr ∨ expr ≠ nullptr) → isErrorTy (L.getTypeDecor ident) = false) :
    (exitLeft_expr ⟨node, ident, intval, expr⟩ L).diagnostics =
      (exitExprIdent ⟨node, ident, intval, expr⟩ L).diagnostics ∧
    (exitLeft_expr ⟨node, ident, intval, expr⟩ L).getTypeDecor node =
      (exitExprIdent ⟨node, ident, intval, expr⟩ L).getTypeDecor node ∧
    (exitLeft_expr ⟨node, ident, intval, expr⟩ L).getIsLValueDecor node =
      (exitExprIdent ⟨node, ident, intval, expr⟩ L).getIsLValueDecor node := by
  unfold exitLeft_expr exitExprIdent
  simp only [getTypeDecor, TreeDecoration.getType] at h ⊢
  by_cases hi : intval = nullptr <;>
  by_cases hx : expr = nullptr <;>
  by_cases he : isErrorTy (L.Decorations.type ident) = true <;>
  by_cases ha : isArrayTy (L.Decorations.type ident) = true <;>
  by_cases hn : isNumericTy (L.Decorations.type expr) = true <;>
  simp [Id.run, hi, hx, he, ha, hn, report, diagnostics, SemErrors.add, getTypeDecor,
    putTypeDecor, putIsLValueDecor, getIsLValueDecor, TreeDecoration.getType,
    TreeDecoration.putType, TreeDecoration.putIsLValue, TreeDecoration.getIsLValue] at h ⊢

/-- C19 fails on the code: for the indexed access `e[2]` whose base `e` is already typed
`error`, both rules write type `error` and the lvalue flag of the identifier, but
`exitLeft_expr` emits no diagnostic whereas `exitExprIdent` emits
`nonArrayInArrayAccess`. -/
theorem exitExprIdent_reports_error_base :
    (sampleListener .void).getTypeDecor (Left_exprContext.mk 70 1 nullptr 3).ident
      = TypeId.error ∧
    (exitLeft_expr (Left_exprContext.mk 70 1 nullptr 3) (sampleListener .void)).diagnostics =
      (sampleListener .void).diagnostics ∧
    (exitExprIdent (ExprIdentContext.mk 70 1 nullptr 3) (sampleListener .void)).diagnostics =
      (sampleListener .void).diagnostics ++ [SemError.nonArrayInArrayAccess 1] ∧
    (exitLeft_expr (Left_exprContext.mk 70 1 nullptr 3) (sampleListener .void)).getTypeDecor 70
      = TypeId.error ∧
    (exitExprIdent (ExprIdentContext.mk 70 1 nullptr 3) (sampleListener .void)).getTypeDecor 70
      = TypeId.error ∧
    (exitLeft_expr (Left_exprContext.mk 70 1 nullptr 3)
        (sampleListener .void)).getIsLValueDecor 70 =
      (exitExprIdent (ExprIdentContext.mk 70 1 nullptr 3)
        (sampleListener .void)).getIsLValueDecor 70 :=
  ⟨rfl, rfl, rfl, rfl, rfl, rfl⟩

/-! ## Assignments to names that are not referenceable -/

/-- The sentinel type is an error type. -/
theorem isErrorTy_createErrorTy : isErrorTy createErrorTy = true := rfl

set_option maxHeartbeats 2000000 in
/-- The diagnostics of `exitAssignStmt` in either form of the assignment: first those of
the array-identifier child, if there is one and its type is not `error`
(`nonArrayInArrayAccess`, then `nonIntegerIndexInArrayAccess`), then
`nonReferenceableLeftExpr` iff the type of the left side is not `error` and the left side
is not an lvalue, then `incompatibleAssignment` iff the type of the left side and the
type `t2` kept for the right side are not `error` and not copyable. -/
theorem exitAssignStmt_diagnostics (ctx : AssignStmtContext) (L : TypeCheckListener) :
    ∃ t2, (exitAssignStmt ctx L).diagnostics =
      L.diagnostics ++
        (if ctx.ident ≠ nullptr ∧ isErrorTy (L.getTypeDecor ctx.ident) = false then
          (if isArrayTy (L.getTypeDecor ctx.ident) then []
            else [SemError.nonArrayInArrayAccess ctx.ident]) ++
          (if ctx.expr ≠ nullptr ∧ isNumericTy (L.getTypeDecor ctx.expr) = false
            then [SemError.nonIntegerIndexInArrayAccess ctx.expr] else [])
         else []) ++
        (if isErrorTy (L.getTypeDecor ctx.left_expr) = false ∧
            L.getIsLValueDecor ctx.left_expr = false
          then [SemError.nonReferenceableLeftExpr ctx.left_expr] else []) ++
        (if isErrorTy (L.getTypeDecor ctx.left_expr) = false ∧ isErrorTy t2 = false ∧
            copyableTypes (L.getTypeDecor ctx.left_expr) t2 = false
          then [SemError.incompatibleAssignment ctx.ASSIGN] else []) := by
  unfold exitAssignStmt
  simp only [getTypeDecor, getIsLValueDecor, TreeDecoration.getType,
    TreeDecoration.getIsLValue, Id.run, Id.pure_eq, Id.bind_eq, pure_bind]
  by_cases h0 : ctx.ident = nullptr
  · refine ⟨L.Decorations.type ctx.expr, ?_⟩
    simp only [h0, bne_self_eq_false, Bool.false_eq_true, if_false]
    by_cases h1 : isErrorTy (L.Decorations.type ctx.left_expr) = true <;>
    by_cases h2 : isErrorTy (L.Decorations.type ctx.expr) = true <;>
    by_cases h3 : L.Decorations.isLValue ctx.left_expr = true <;>
    by_cases h4 : copyableTypes (L.Decorations.type ctx.left_expr)
      (L.Decorations.type ctx.expr) = true <;>
    simp [h1, h2, h3, h4, report, diagnostics, SemErrors.add]
  · have h0b : (ctx.ident != nullptr) = true := by simpa using h0
    simp only [h0b, if_true]
    by_cases he : isErrorTy (L.Decorations.type ctx.ident) = true
    · refine ⟨L.Decorations.type ctx.ident, ?_⟩
      simp only [he, Bool.not_true, Bool.false_eq_true, if_false]
      by_cases h1 : isErrorTy (L.Decorations.type ctx.left_expr) = true <;>
      by_cases h3 : L.Decorations.isLValue ctx.left_expr = true <;>
      simp [h0, he, h1, h3, report, diagnostics, SemErrors.add]
    · have heb : isErrorTy (L.Decorations.type ctx.ident) = false := by simpa using he
      simp only [heb, Bool.not_false, if_true]
      by_cases ha : isArrayTy (L.Decorations.type ctx.ident) = true <;>
      by_cases hx : ctx.expr = nullptr <;>
      by_cases hn : isNumericTy (L.Decorations.type ctx.expr) = true
      all_goals
        first
        | (refine ⟨getArrayElemType (L.Decorations.type ctx.ident), ?_⟩
           by_cases h1 : isErrorTy (L.Decorations.type ctx.left_expr) = true <;>
           by_cases h3 : L.Decorations.isLValue ctx.left_expr = true <;>
           by_cases h2 : isErrorTy (getArrayElemType (L.Decorations.type ctx.ident)) = true <;>
           by_cases h4 : copyableTypes (L.Decorations.type ctx.left_expr)
             (getArrayElemType (L.Decorations.type ctx.ident)) = true <;>
           simp [h0, ha, hx, hn, h1, h2, h3, h4, report, diagnostics, SemErrors.add,
             getIsLValueDecor, TreeDecoration.getIsLValue]
           done)
        | (refine ⟨createErrorTy, ?_⟩
           by_cases h1 : isErrorTy (L.Decorations.type ctx.left_expr) = true <;>
           by_cases h3 : L.Decorations.isLValue ctx.left_expr = true <;>
           simp [h0, ha, hx, hn, h1, h3, report, diagnostics, SemErrors.add,
             getIsLValueDecor, TreeDecoration.getIsLValue, isErrorTy_createErrorTy])

/-- The rule `exitAssignStmt` emits `nonReferenceableLeftExpr` iff the type of its left
side is not `error` and its left side is not an lvalue, in either form of the
assignment. -/
theorem exitAssignStmt_nonReferenceable (ctx : AssignStmtContext) (L : TypeCheckListener) :
    (∃ n, SemError.nonReferenceableLeftExpr n ∈ emitted L (exitAssignStmt ctx L)) ↔
      (isErrorTy (L.getTypeDecor ctx.left_expr) = false ∧
        L.getIsLValueDecor ctx.left_expr = false) := by
  obtain ⟨t2, h⟩ := exitAssignStmt_diagnostics ctx L
  unfold emitted
  rw [h]
  simp only [List.append_assoc, List.drop_left]
  constructor
  · rintro ⟨n, hn⟩
    by_contra hc
    rw [if_neg hc] at hn
    simp only [List.nil_append, List.mem_append] at hn
    rcases hn with hn | hn
    · split_ifs at hn <;> simp at hn
    · split_ifs at hn <;> simp at hn
  · intro hc
    exact ⟨ctx.left_expr, by simp [hc]⟩

/-- The decorations `exitLeft_expr` writes: the lvalue flag of its identifier; the type
of its identifier if the access is not indexed; `error` if it is indexed and the type of
its identifier is not an array. -/
theorem exitLeft_expr_decorations (ctx : Left_exprContext) (L : TypeCheckListener) :
    (exitLeft_expr ctx L).getIsLValueDecor ctx.node = L.getIsLValueDecor ctx.ident ∧
    (ctx.INTVAL = nullptr → ctx.expr = nullptr →
      (exitLeft_expr ctx L).getTypeDecor ctx.node = L.getTypeDecor ctx.ident) ∧
    (¬ (ctx.INTVAL = nullptr ∧ ctx.expr = nullptr) →
      isArrayTy (L.getTypeDecor ctx.ident) = false →
      (exitLeft_expr ctx L).getTypeDecor ctx.node = createErrorTy) := by
  unfold exitLeft_expr
  simp only [getTypeDecor, TreeDecoration.getType]
  by_cases hi : ctx.INTVAL = nullptr <;>
  by_cases hx : ctx.expr = nullptr <;>
  by_cases he : isErrorTy (L.Decorations.type ctx.ident) = true <;>
  by_cases ha : isArrayTy (L.Decorations.type ctx.ident) = true <;>
  by_cases hn : isNumericTy (L.Decorations.type ctx.expr) = true <;>
  simp [Id.run, hi, hx, he, ha, hn, report, getTypeDecor, putTypeDecor, putIsLValueDecor,
    getIsLValueDecor, TreeDecoration.getType, TreeDecoration.putType,
    TreeDecoration.putIsLValue, TreeDecoration.getIsLValue]

/-- The decorations `exitIdent` writes for an undeclared and for a declared name. -/
theorem exitIdent_decorations (ctx : IdentContext) (L : TypeCheckListener) :
    (L.Symbols.findInStack ctx.getText = -1 →
      (exitIdent ctx L).getTypeDecor ctx.node = createErrorTy ∧
      (exitIdent ctx L).getIsLValueDecor ctx.node = true) ∧
    (L.Symbols.findInStack ctx.getText ≠ -1 →
      (exitIdent ctx L).getTypeDecor ctx.node = L.Symbols.getType ctx.getText ∧
      (exitIdent ctx L).getIsLValueDecor ctx.node = !L.Symbols.isFunctionClass ctx.getText) := by
  unfold exitIdent
  constructor
  · intro h
    simp [Id.run, h, report, getTypeDecor, getIsLValueDecor,
      putTypeDecor, putIsLValueDecor, TreeDecoration.getType, TreeDecoration.getIsLValue,
      TreeDecoration.putType, TreeDecoration.putIsLValue]
  · intro h
    cases hf : L.Symbols.isFunctionClass ctx.getText <;>
    simp [Id.run, h, hf, report, getTypeDecor, getIsLValueDecor,
      putTypeDecor, putIsLValueDecor, TreeDecoration.getType, TreeDecoration.getIsLValue,
      TreeDecoration.putType, TreeDecoration.putIsLValue]

/-- A function type is neither the error type nor an array type. -/
theorem isFunctionTy_not_error_not_array (t : TypeId) (h : isFunctionTy t = true) :
    isErrorTy t = false ∧ isArrayTy t = false := by
  cases t <;> simp [isFunctionTy, isErrorTy, isArrayTy] at h ⊢

/-- C20: composing `exitIdent`, `exitLeft_expr` and `exitAssignStmt` — with the rules
`index` of the index expression fired between the first two and the rules `rhs` of the
right side fired between the last two, none of which decorates the identifier node
resp. the left-expression node — and assuming the name, if it is a function-class
symbol, has a function type: the assignment emits `nonReferenceableLeftExpr` iff its left
side is an un-indexed identifier that resolves to a function-class symbol. -/
theorem assignment_nonReferenceable (ic : IdentContext) (lc : Left_exprContext)
    (ac : AssignStmtContext) (index rhs : List BodyRule) (L : TypeCheckListener)
    (hident : lc.ident = ic.node) (hleft : ac.left_expr = lc.node)
    (hindex : ∀ r ∈ index, r.decorated ≠ some ic.node)
    (hrhs : ∀ r ∈ rhs, r.decorated ≠ some lc.node)
    (hfun : L.Symbols.isFunctionClass ic.getText = true →
      isFunctionTy (L.Symbols.getType ic.getText) = true) :
    (∃ n, SemError.nonReferenceableLeftExpr n ∈
        emitted (walkBody rhs (exitLeft_expr lc (walkBody index (exitIdent ic L))))
          (exitAssignStmt ac
            (walkBody rhs (exitLeft_expr lc (walkBody index (exitIdent ic L)))))) ↔
      (lc.INTVAL = nullptr ∧ lc.expr = nullptr ∧
        L.Symbols.findInStack ic.getText ≠ -1 ∧
        L.Symbols.isFunctionClass ic.getText = true) := by
  rw [exitAssignStmt_nonReferenceable, hleft]
  obtain ⟨_, _, _, _, krhs⟩ := walkBody_keeps rhs (exitLeft_expr lc (walkBody index (exitIdent ic L)))
  obtain ⟨_, _, _, _, kidx⟩ := walkBody_keeps index (exitIdent ic L)
  have k4 := krhs lc.node (fun r hr => (hrhs r hr).symm)
  have k2 := kidx ic.node (fun r hr => (hindex r hr).symm)
  obtain ⟨l1, l2, l3⟩ := exitLeft_expr_decorations lc (walkBody index (exitIdent ic L))
  obtain ⟨i1, i2⟩ := exitIdent_decorations ic L
  simp only [getTypeDecor, getIsLValueDecor, TreeDecoration.getType,
    TreeDecoration.getIsLValue] at k4 k2 l1 l2 l3 i1 i2 ⊢
  rw [k4.1, k4.2, l1, hident, k2.2]
  rw [hident, k2.1] at l2 l3
  by_cases hfound : L.Symbols.findInStack ic.getText = -1
  · simp [(i1 hfound).2, hfound]
  · obtain ⟨j1, j2⟩ := i2 hfound
    rw [j1] at l2 l3
    rw [j2]
    by_cases hcls : L.Symbols.isFunctionClass ic.getText = true
    · obtain ⟨f1, f2⟩ := isFunctionTy_not_error_not_array _ (hfun hcls)
      by_cases hplain : lc.INTVAL = nullptr ∧ lc.expr = nullptr
      · rw [l2 hplain.1 hplain.2]
        simp [f1, hcls, hplain.1, hplain.2, hfound]
      · rw [l3 hplain f2]
        simp only [isErrorTy_createErrorTy]
        simp
        intro a b
        exact absurd ⟨a, b⟩ hplain
    · simp [hcls]

/-- Witness of C20: in the sample state, `f := 'c'` with `f` a function symbol emits
`nonReferenceableLeftExpr`; the indexed `f[2] := 'c'`, the variable `x := 'c'` and the
undeclared `y := 'c'` do not. -/
theorem assignment_nonReferenceable_witness :
    (∃ n, SemError.nonReferenceableLeftExpr n ∈
      emitted
        (walkBody [BodyRule.exitValue (ValueContext.mk 65 nullptr nullptr 66 nullptr)]
          (exitLeft_expr (Left_exprContext.mk 62 60 nullptr nullptr)
            (walkBody [] (exitIdent (IdentContext.mk 60 "f" 61) (sampleListener .void)))))
        (exitAssignStmt (AssignStmtContext.mk 63 62 65 nullptr 64)
          (walkBody [BodyRule.exitValue (ValueContext.mk 65 nullptr nullptr 66 nullptr)]
            (exitLeft_expr (Left_exprContext.mk 62 60 nullptr nullptr)
              (walkBody [] (exitIdent (IdentContext.mk 60 "f" 61) (sampleListener .void))))))) ∧
    (¬ ∃ n, SemError.nonReferenceableLeftExpr n ∈
      emitted
        (walkBody [BodyRule.exitValue (ValueContext.mk 65 nullptr nullptr 66 nullptr)]
          (exitLeft_expr (Left_exprContext.mk 62 60 nullptr 3)
            (walkBody [] (exitIdent (IdentContext.mk 60 "f" 61) (sampleListener .void)))))
        (exitAssignStmt (AssignStmtContext.mk 63 62 65 nullptr 64)
          (walkBody [BodyRule.exitValue (ValueContext.mk 65 nullptr nullptr 66 nullptr)]
            (exitLeft_expr (Left_exprContext.mk 62 60 nullptr 3)
              (walkBody [] (exitIdent (IdentContext.mk 60 "f" 61) (sampleListener .void))))))) ∧
    (¬ ∃ n, SemError.nonReferenceableLeftExpr n ∈
      emitted
        (walkBody [BodyRule.exitValue (ValueContext.mk 65 nullptr nullptr 66 nullptr)]
          (exitLeft_expr (Left_exprContext.mk 62 60 nullptr nullptr)
            (walkBody [] (exitIdent (IdentContext.mk 60 "x" 61) (sampleListener .void)))))
        (exitAssignStmt (AssignStmtContext.mk 63 62 65 nullptr 64)
          (walkBody [BodyRule.exitValue (ValueContext.mk 65 nullptr nullptr 66 nullptr)]
            (exitLeft_expr (Left_exprContext.mk 62 60 nullptr nullptr)
              (walkBody [] (exitIdent (IdentContext.mk 60 "x" 61) (sampleListener .void))))))) ∧
    (¬ ∃ n, SemError.nonReferenceableLeftExpr n ∈
      emitted
        (walkBody [BodyRule.exitValue (ValueContext.mk 65 nullptr nullptr 66 nullptr)]
          (exitLeft_expr (Left_exprContext.mk 62 60 nullptr nullptr)
            (walkBody [] (exitIdent (IdentContext.mk 60 "y" 61) (sampleListener .void)))))
        (exitAssignStmt (AssignStmtContext.mk 63 62 65 nullptr 64)
          (walkBody [BodyRule.exitValue (ValueContext.mk 65 nullptr nullptr 66 nullptr)]
            (exitLeft_expr (Left_exprContext.mk 62 60 nullptr nullptr)
              (walkBody [] (exitIdent (IdentContext.mk 60 "y" 61) (sampleListener .void))))))) :=
  ⟨(assignment_nonReferenceable (IdentContext.mk 60 "f" 61)
      (Left_exprContext.mk 62 60 nullptr nullptr) (AssignStmtContext.mk 63 62 65 nullptr 64)
      [] [BodyRule.exitValue (ValueContext.mk 65 nullptr nullptr 66 nullptr)]
      (sampleListener .void) rfl rfl (by simp) (by simp [BodyRule.decorated])
      (fun _ => rfl)).mpr ⟨rfl, rfl, by decide, by decide⟩,
    fun h => absurd ((assignment_nonReferenceable (IdentContext.mk 60 "f" 61)
      (Left_exprContext.mk 62 60 nullptr 3) (AssignStmtContext.mk 63 62 65 nullptr 64)
      [] [BodyRule.exitValue (ValueContext.mk 65 nullptr nullptr 66 nullptr)]
      (sampleListener .void) rfl rfl (by simp) (by simp [BodyRule.decorated])
      (fun _ => rfl)).mp h).2.1 (by decide),
    fun h => absurd ((assignment_nonReferenceable (IdentContext.mk 60 "x" 61)
      (Left_exprContext.mk 62 60 nullptr nullptr) (AssignStmtContext.mk 63 62 65 nullptr 64)
      [] [BodyRule.exitValue (ValueContext.mk 65 nullptr nullptr 66 nullptr)]
      (sampleListener .void) rfl rfl (by simp) (by simp [BodyRule.decorated])
      (by decide)).mp h).2.2.2 (by decide),
    fun h => absurd ((assignment_nonReferenceable (IdentContext.mk 60 "y" 61)
      (Left_exprContext.mk 62 60 nullptr nullptr) (AssignStmtContext.mk 63 62 65 nullptr 64)
      [] [BodyRule.exitValue (ValueContext.mk 65 nullptr nullptr 66 nullptr)]
      (sampleListener .void) rfl rfl (by simp) (by simp [BodyRule.decorated])
      (by decide)).mp h).2.2.1 (by decide)⟩

/-- Scenario 6 on the sample traversal: a program without `main` whose body yields one
`booleanRequired` ends with `noMainProperlyDeclared` after it, prints the collection
once, and leaves the stack of active scopes as it found it. -/
theorem walkProgram_sample :
    (walkProgram sampleProgramWalk sampleListenerNoMain).diagnostics =
      [SemError.booleanRequired 80, SemError.noMainProperlyDeclared 100] ∧
    (walkProgram sampleProgramWalk sampleListenerNoMain).Errors.printed =
      [[SemError.booleanRequired 80, SemError.noMainProperlyDeclared 100]] ∧
    (walkProgram sampleProgramWalk sampleListenerNoMain).Symbols.stack = [] ∧
    (walkFunctions sampleProgramWalk.functions
      (enterProgram sampleProgramWalk.ctx sampleListenerNoMain)).Symbols.stack = [0] :=
  ⟨rfl, rfl, rfl, rfl⟩

end TypeCheckListener

end Asl
